import Mathlib

/-!
# go-wisp: a shallow embedding of the WISP multiplex engine

The Go package `wisp` (packetUtil.go, wisp.go, wisp-connection.go, wisp-stream.go)
is embedded as pure functions over an explicit `World`.

* Bytes, `uint8`, `uint16` and `uint32` values are natural numbers; truncation is
  written out (`% 256`, `% 4294967296`) where the Go code truncates or wraps.
* A Go run-time panic (index out of range, close of a nil channel, nil
  dereference, ...) is the result `none`: no goroutine recovers, so the process ends.
* `*wispStream` pointers are indices into `World.heap`; `net.Conn` values are
  indices into `World.sockets`.
* A `go f(...)` statement appends a `Task` to `World.tasks`; the task body is a
  separate function of the model that a schedule may run later.
* What the environment decides (DNS answer, dial result, socket read and write
  results, carrier write error) is a parameter of the function that observes it.
-/

namespace Wisp

/-! ## Constants -/

/-- Modelled from the spec: the file declaring the packet type constants is not part of
the sources; section 3 gives CONNECT=0x01. -/
def packetTypeConnect : Nat := 0x01

/-- Modelled from the spec: the file declaring the packet type constants is not part of
the sources; section 3 gives DATA=0x02. -/
def packetTypeData : Nat := 0x02

/-- Modelled from the spec: the file declaring the packet type constants is not part of
the sources; section 3 gives CONTINUE=0x03. -/
def packetTypeContinue : Nat := 0x03

/-- Modelled from the spec: the file declaring the packet type constants is not part of
the sources; section 3 gives CLOSE=0x04. -/
def packetTypeClose : Nat := 0x04

/-- Modelled from the spec: the stream type constants are not part of the sources;
section 3 gives TCP=0x01. -/
def streamTypeTCP : Nat := 0x01

/-- Modelled from the spec: the stream type constants are not part of the sources;
section 3 gives UDP=0x02. -/
def streamTypeUDP : Nat := 0x02

/-- Modelled from the spec: the close reason constants are not part of the sources;
section 3 gives UNSPECIFIED=0x01. -/
def closeReasonUnspecified : Nat := 0x01

/-- Modelled from the spec: the close reason constants are not part of the sources;
section 3 gives VOLUNTARY=0x02. -/
def closeReasonVoluntary : Nat := 0x02

/-- Modelled from the spec: the close reason constants are not part of the sources;
section 3 gives NETWORK_ERROR=0x03. -/
def closeReasonNetworkError : Nat := 0x03

/-- Modelled from the spec: the close reason constants are not part of the sources;
section 3 gives INVALID_INFO=0x41. -/
def closeReasonInvalidInfo : Nat := 0x41

/-- Modelled from the spec: the close reason constants are not part of the sources;
section 3 gives UNREACHABLE=0x42. -/
def closeReasonUnreachable : Nat := 0x42

/-- Modelled from the spec: the close reason constants are not part of the sources;
section 3 gives BLOCKED=0x49. -/
def closeReasonBlocked : Nat := 0x49

/-! ## encoding/binary -/

/-- The four bytes `binary.LittleEndian.PutUint32` stores for a `uint32`. -/
def putUint32 (v : Nat) : List Nat :=
  [v % 256, v / 256 % 256, v / 65536 % 256, v / 16777216 % 256]

/-- The value `binary.LittleEndian.Uint32` reads; `none` when the slice has fewer than
four bytes (index out of range). -/
def uint32 (b : List Nat) : Option Nat :=
  match b with
  | b0 :: b1 :: b2 :: b3 :: _ => some (b0 + b1 * 256 + b2 * 65536 + b3 * 16777216)
  | _ => none

/-- The value `binary.LittleEndian.Uint16` reads; `none` when the slice has fewer than
two bytes. -/
def uint16 (b : List Nat) : Option Nat :=
  match b with
  | b0 :: b1 :: _ => some (b0 + b1 * 256)
  | _ => none

/-- The Go slice expression `s[lo:hi]` on a slice whose capacity is its length; `none` is the
slice-bounds panic. -/
def slice (s : List Nat) (lo hi : Nat) : Option (List Nat) :=
  if lo ≤ hi ∧ hi ≤ s.length then some ((s.drop lo).take (hi - lo)) else none

/-- The Go slice expression `s[lo:]`. -/
def sliceFrom (s : List Nat) (lo : Nat) : Option (List Nat) :=
  if lo ≤ s.length then some (s.drop lo) else none

/-! ## packetUtil.go -/

/-- Embedding of `createWispPacket`: a buffer of `5 + len(payload)` bytes, the type at index 0,
the stream id little-endian at 1..4, the payload copied from index 5. -/
def createWispPacket (packetType : Nat) (streamId : Nat) (payload : List Nat) : List Nat :=
  packetType :: (putUint32 streamId ++ payload)

/-- Embedding of `parseWispPacket`: `packet[0]`, `Uint32(packet[1:5])` and a clone of
`packet[5:]`. -/
def parseWispPacket (packet : List Nat) : Option (Nat × Nat × List Nat) := do
  let packetType ← packet[0]?
  let idBytes ← slice packet 1 5
  let streamId ← uint32 idBytes
  let payload ← sliceFrom packet 5
  pure (packetType, streamId, payload)

/-! ## Data model (wisp.go, wisp-connection.go, wisp-stream.go) -/

/-- Embedding of `Config`; the two hostname sets are lists of byte strings. -/
structure Config where
  DisableUDP : Bool
  TcpBufferSize : Int
  BufferRemainingLength : Nat
  TcpNoDelay : Bool
  WebsocketTcpNoDelay : Bool
  BlacklistHostnames : List (List Nat)
  WhitelistHostnames : List (List Nat)
  Proxy : String
  WebsocketPermessageDeflate : Bool
  DnsServer : String
deriving DecidableEq, Repr

/-- A value of type `chan struct{}`: the zero value (never made), made and not closed, or
closed. -/
inductive Chan where
  | nilChan
  | live
  | closed
deriving DecidableEq, Repr

/-- A value made by `make(chan []byte, capacity)`: the buffered payloads, oldest first, and
whether `close` was called on it. -/
structure DataQueue where
  capacity : Nat
  items : List (List Nat)
  closed : Bool
deriving DecidableEq, Repr

/-- Embedding of the struct `wispStream`. `wispConn` is the one connection of the `World`;
`conn` is `none` for a nil `net.Conn`; `connEstablishedOnce` is the done flag of the
`sync.Once`; `dataQueue` is `none` for a nil channel. -/
structure wispStream where
  streamId : Nat
  streamType : Nat
  conn : Option Nat
  bufferRemaining : Nat
  connEstablished : Chan
  connEstablishedOnce : Bool
  dataQueue : Option DataQueue
  isOpen : Bool
deriving DecidableEq, Repr

/-- An outbound socket returned by a successful dial: what was dialled, the `SetNoDelay`
setting, the buffers passed to successful `Write` calls, and the number of `Close` calls. -/
structure Socket where
  network : String
  hostname : List Nat
  port : String
  viaProxy : Bool
  noDelay : Option Bool
  written : List (List Nat)
  closeCalls : Nat
deriving DecidableEq, Repr

/-- A goroutine launched by a `go` statement. The sources contain `go` statements for
`handleConnect`, `sendClosePacket`, `handleClose` and `readFromConnection`; `handleData`
is listed so that its absence can be stated. -/
inductive Task where
  | handleConnect (s : Nat) (streamType : Nat) (port : String) (hostname : List Nat)
  | handleData (s : Nat)
  | handleClose (s : Nat) (reason : Nat)
  | sendClosePacket (streamId : Nat) (reason : Nat)
  | readFromConnection (s : Nat)
deriving DecidableEq, Repr

/-- The state of one `wispConnection` and of everything reachable from it.
`streams` is the map `c.streams` (stream id to stream pointer), `sent` the frames passed to
`wsConn.Writev` (oldest first), `wsWriteErr` whether `Writev` reports an error,
`netConnClosed` whether `c.close()` ran. -/
structure World where
  config : Config
  heap : List wispStream
  streams : List (Nat × Nat)
  sent : List (List Nat)
  wsWriteErr : Bool
  netConnClosed : Bool
  sockets : List Socket
  tasks : List Task
deriving DecidableEq, Repr

/-- The state `CreateWispHandler` builds: an empty stream map (`make(map[uint32]*wispStream)`). -/
def World.create (config : Config) : World :=
  { config := config, heap := [], streams := [], sent := [], wsWriteErr := false,
    netConnClosed := false, sockets := [], tasks := [] }

/-- Dereference of a stream pointer; `none` is the nil-dereference panic. -/
def World.getStream (w : World) (p : Nat) : Option wispStream := w.heap[p]?

/-- Store through a stream pointer. -/
def World.setStream (w : World) (p : Nat) (s : wispStream) : World :=
  { w with heap := w.heap.set p s }

/-- Go map read `m[k]` with the comma-ok form. -/
def mapGet (m : List (Nat × Nat)) (k : Nat) : Option Nat := m.lookup k

/-- Go builtin `delete(m, k)`. -/
def mapDelete (m : List (Nat × Nat)) (k : Nat) : List (Nat × Nat) :=
  m.filter (fun e => e.1 != k)

/-- Go map write `m[k] = v`. -/
def mapSet (m : List (Nat × Nat)) (k v : Nat) : List (Nat × Nat) :=
  mapDelete m k ++ [(k, v)]

/-! ## wisp-connection.go -/

/-- Embedding of `wispConnection.close`. -/
def wispConnection.close (w : World) : World :=
  { w with netConnClosed := true }

/-- Embedding of `wispConnection.sendPacket`: the 5-byte header and the payload go to `Writev`
as one message; a write error closes the carrier. -/
def wispConnection.sendPacket (w : World) (packetType streamId : Nat) (payload : List Nat) :
    World :=
  let header := packetType :: putUint32 streamId
  let w1 := { w with sent := w.sent ++ [header ++ payload] }
  if w.wsWriteErr then wispConnection.close w1 else w1

/-- Embedding of `wispConnection.sendDataPacket`. -/
def wispConnection.sendDataPacket (w : World) (streamId : Nat) (data : List Nat) : World :=
  wispConnection.sendPacket w packetTypeData streamId data

/-- Embedding of `wispConnection.sendContinuePacket`. -/
def wispConnection.sendContinuePacket (w : World) (streamId bufferRemaining : Nat) : World :=
  wispConnection.sendPacket w packetTypeContinue streamId (putUint32 bufferRemaining)

/-- Embedding of `wispConnection.sendClosePacket`. -/
def wispConnection.sendClosePacket (w : World) (streamId reason : Nat) : World :=
  wispConnection.sendPacket w packetTypeClose streamId [reason]

/-- Embedding of `wispConnection.init`. -/
def wispConnection.init (w : World) : World :=
  wispConnection.sendContinuePacket w 0 w.config.BufferRemainingLength

/-- Embedding of `wispConnection.deleteWispStream`. -/
def wispConnection.deleteWispStream (w : World) (streamId : Nat) : World :=
  { w with streams := mapDelete w.streams streamId }

/-- Embedding of `wispConnection.handleConnectPacket`. The stream value is built before the
map is consulted, as in the source; it reaches the heap only when it is stored in the map. -/
def wispConnection.handleConnectPacket (w : World) (streamId : Nat) (payload : List Nat) :
    Option World :=
  if payload.length < 3 then some w
  else do
    let streamType ← payload[0]?
    let portBytes ← slice payload 1 3
    let portValue ← uint16 portBytes
    let port := Nat.repr portValue
    let hostname ← sliceFrom payload 3
    let stream : wispStream :=
      { streamId := streamId, streamType := 0, conn := none, bufferRemaining := 0,
        connEstablished := Chan.nilChan, connEstablishedOnce := false,
        dataQueue := some
          { capacity := w.config.BufferRemainingLength, items := [], closed := false },
        isOpen := true }
    if (mapGet w.streams streamId).isSome then some w
    else
      let p := w.heap.length
      some { w with
        heap := w.heap ++ [stream],
        streams := mapSet w.streams streamId p,
        tasks := w.tasks ++ [Task.handleConnect p streamType port hostname] }

/-- Embedding of `wispConnection.handleDataPacket`. The `select` with `default` enqueues when
the buffer has room and drops the payload otherwise; a send on a closed channel panics. -/
def wispConnection.handleDataPacket (w : World) (streamId : Nat) (payload : List Nat) :
    Option World :=
  match mapGet w.streams streamId with
  | none =>
    some { w with tasks := w.tasks ++ [Task.sendClosePacket streamId closeReasonInvalidInfo] }
  | some p => do
    let stream ← w.getStream p
    if !stream.isOpen then some w
    else
      match stream.dataQueue with
      | none => some w
      | some q =>
        if q.closed then none
        else if q.items.length < q.capacity then
          some (w.setStream p
            { stream with dataQueue := some { q with items := q.items ++ [payload] } })
        else some w

/-- Embedding of `wispConnection.handleClosePacket`. -/
def wispConnection.handleClosePacket (w : World) (streamId : Nat) (payload : List Nat) :
    Option World :=
  if payload.length < 1 then some w
  else do
    let closeReason ← payload[0]?
    match mapGet w.streams streamId with
    | none => some w
    | some p => some { w with tasks := w.tasks ++ [Task.handleClose p closeReason] }

/-- Embedding of `wispConnection.handlePacket`. -/
def wispConnection.handlePacket (w : World) (packetType streamId : Nat) (payload : List Nat) :
    Option World :=
  if packetType = packetTypeConnect then wispConnection.handleConnectPacket w streamId payload
  else if packetType = packetTypeData then wispConnection.handleDataPacket w streamId payload
  else if packetType = packetTypeClose then wispConnection.handleClosePacket w streamId payload
  else some w

/-! ## wisp.go -/

/-- Embedding of `handler.OnOpen`. -/
def handler.OnOpen (w : World) : World := wispConnection.init w

/-- Embedding of `handler.OnMessage`. -/
def handler.OnMessage (w : World) (packet : List Nat) : Option World :=
  if packet.length < 5 then some w
  else do
    let (packetType, streamId, payload) ← parseWispPacket packet
    wispConnection.handlePacket w packetType streamId payload

/-! ## wisp-stream.go -/

/-- Embedding of `wispStream.sendData`. -/
def wispStream.sendData (w : World) (p : Nat) (payload : List Nat) : Option World := do
  let s ← w.getStream p
  pure (wispConnection.sendDataPacket w s.streamId payload)

/-- Embedding of `wispStream.sendContinue`. -/
def wispStream.sendContinue (w : World) (p : Nat) (bufferRemaining : Nat) : Option World := do
  let s ← w.getStream p
  pure (wispConnection.sendContinuePacket w s.streamId bufferRemaining)

/-- Embedding of `wispStream.sendClose`. -/
def wispStream.sendClose (w : World) (p : Nat) (reason : Nat) : Option World := do
  let s ← w.getStream p
  pure (wispConnection.sendClosePacket w s.streamId reason)

/-- Embedding of `wispStream.signalConnectionAttemptDone`: `sync.Once.Do` runs
`close(s.connEstablished)` on the first call only. Closing a nil channel, or a closed one,
panics. -/
def wispStream.signalConnectionAttemptDone (w : World) (p : Nat) : Option World := do
  let s ← w.getStream p
  if s.connEstablishedOnce then some w
  else
    match s.connEstablished with
    | Chan.nilChan => none
    | Chan.closed => none
    | Chan.live =>
      some (w.setStream p
        { s with connEstablishedOnce := true, connEstablished := Chan.closed })

/-- Embedding of `wispStream.closeConnection`: `Close` on the socket when `s.conn` is not
nil. -/
def wispStream.closeConnection (w : World) (p : Nat) : Option World := do
  let s ← w.getStream p
  match s.conn with
  | none => some w
  | some k =>
    let sock ← w.sockets[k]?
    some { w with sockets := w.sockets.set k { sock with closeCalls := sock.closeCalls + 1 } }

/-- Embedding of `wispStream.close`. -/
def wispStream.close (w : World) (p : Nat) (reason : Nat) : Option World := do
  let s ← w.getStream p
  if !s.isOpen then some w
  else
    let w1 := w.setStream p { s with isOpen := false }
    let w2 ← wispStream.signalConnectionAttemptDone w1 p
    let w3 := wispConnection.deleteWispStream w2 s.streamId
    let w4 ← wispStream.closeConnection w3 p
    let s4 ← w4.getStream p
    let w5 ← match s4.dataQueue with
      | none => some w4
      | some q =>
        if q.closed then none
        else some (w4.setStream p { s4 with dataQueue := some { q with closed := true } })
    wispStream.sendClose w5 p reason

/-- Embedding of `wispStream.handleClose`: the peer's reason is discarded. -/
def wispStream.handleClose (w : World) (p : Nat) (_reason : Nat) : Option World :=
  wispStream.close w p closeReasonVoluntary

/-- Embedding of `wispConnection.deleteAllWispStreams`: the snapshot of the map's streams is
taken first, then each is closed. Go leaves the iteration order of a map open; the list order
is used here. -/
def wispConnection.deleteAllWispStreams (w : World) : Option World :=
  let streams := w.streams.map (fun e => e.2)
  streams.foldlM (fun acc p => wispStream.close acc p closeReasonUnspecified) w

/-- Embedding of `handler.OnClose`. -/
def handler.OnClose (w : World) : Option World := wispConnection.deleteAllWispStreams w

/-- What `handleConnect` observes from outside: the result of `resolver.LookupIPAddr`
(`none` for an error, otherwise the text of `ips[0].IP`), whether `proxy.SOCKS5` failed, and
whether the dial failed. -/
structure DialEnv where
  lookup : Option String
  proxyErr : Bool
  dialErr : Bool
deriving DecidableEq, Repr

/-- Lines 60-61 of `handleConnect`: `s.streamType = streamType` and
`s.bufferRemaining = config.BufferRemainingLength`. -/
def wispStream.armStream (w : World) (p : Nat) (streamType : Nat) : Option World := do
  let s ← w.getStream p
  pure (w.setStream p
    { s with streamType := streamType, bufferRemaining := w.config.BufferRemainingLength })

/-- The body of `handleConnect` up to the call of `netDialer` (which blocks). The result is the
state and, when the body reached the dial, the network and whether the SOCKS5 dialer is used;
`none` in that place means the body has called `s.close` and returned. -/
def wispStream.handleConnectBefore (w : World) (p : Nat) (streamType : Nat)
    (hostname : List Nat) (lookup : Option String) (proxyErr : Bool) :
    Option (World × Option (String × Bool)) := do
  let _ ← w.getStream p
  if hostname ∈ w.config.BlacklistHostnames then
    let w1 ← wispStream.close w p closeReasonBlocked
    pure (w1, none)
  else
    let gate : Option Nat :=
      if hostname ∉ w.config.WhitelistHostnames ∧ w.config.DnsServer ≠ "" then
        match lookup with
        | none => some closeReasonUnreachable
        | some resolvedHostname =>
          if resolvedHostname = "0.0.0.0" ∨ resolvedHostname = "::" then some closeReasonBlocked
          else none
      else none
    match gate with
    | some reason =>
      let w1 ← wispStream.close w p reason
      pure (w1, none)
    | none =>
      let w1 ← wispStream.armStream w p streamType
      if streamType = streamTypeTCP then
        if w.config.Proxy ≠ "" then
          if proxyErr then
            let w2 ← wispStream.close w1 p closeReasonNetworkError
            pure (w2, none)
          else pure (w1, some ("tcp", true))
        else pure (w1, some ("tcp", false))
      else if streamType = streamTypeUDP then
        if w.config.DisableUDP ∨ w.config.Proxy ≠ "" then
          let w2 ← wispStream.close w1 p closeReasonBlocked
          pure (w2, none)
        else pure (w1, some ("udp", false))
      else
        let w2 ← wispStream.close w1 p closeReasonInvalidInfo
        pure (w2, none)

/-- The body of `handleConnect` from the return of `netDialer` on: the assignment to `s.conn`,
the error check, `SetNoDelay` for TCP, and `go s.readFromConnection()`. -/
def wispStream.handleConnectAfter (w : World) (p : Nat) (network : String) (viaProxy : Bool)
    (port : String) (hostname : List Nat) (dialErr : Bool) : Option World := do
  let s ← w.getStream p
  if dialErr then
    let w1 := w.setStream p { s with conn := none }
    wispStream.close w1 p closeReasonNetworkError
  else
    let k := w.sockets.length
    let sock : Socket :=
      { network := network, hostname := hostname, port := port, viaProxy := viaProxy,
        noDelay := none, written := [], closeCalls := 0 }
    let w1 := { w with sockets := w.sockets ++ [sock] }
    let w2 := w1.setStream p { s with conn := some k }
    let w3 ←
      if s.streamType = streamTypeTCP then
        if network = "tcp" then
          some { w2 with
            sockets := w2.sockets.set k { sock with noDelay := some w.config.TcpNoDelay } }
        else none
      else some w2
    pure { w3 with tasks := w3.tasks ++ [Task.readFromConnection p] }

/-- The first scheduling step of the dial task: `handleConnect` runs until it either returns
(then the deferred `signalConnectionAttemptDone` runs too) or blocks in the dial. -/
def wispStream.handleConnectStart (w : World) (p : Nat) (streamType : Nat)
    (hostname : List Nat) (lookup : Option String) (proxyErr : Bool) :
    Option (World × Option (String × Bool)) := do
  let (w1, pending) ← wispStream.handleConnectBefore w p streamType hostname lookup proxyErr
  match pending with
  | none =>
    let w2 ← wispStream.signalConnectionAttemptDone w1 p
    pure (w2, none)
  | some d => pure (w1, some d)

/-- The second scheduling step of the dial task: the dial has returned, the rest of the body
runs, then the deferred `signalConnectionAttemptDone`. -/
def wispStream.handleConnectFinish (w : World) (p : Nat) (network : String) (viaProxy : Bool)
    (port : String) (hostname : List Nat) (dialErr : Bool) : Option World := do
  let w1 ← wispStream.handleConnectAfter w p network viaProxy port hostname dialErr
  wispStream.signalConnectionAttemptDone w1 p

/-- Embedding of `wispStream.handleConnect`, run without interruption. -/
def wispStream.handleConnect (w : World) (p : Nat) (streamType : Nat) (port : String)
    (hostname : List Nat) (env : DialEnv) : Option World := do
  let (w1, pending) ←
    wispStream.handleConnectStart w p streamType hostname env.lookup env.proxyErr
  match pending with
  | none => pure w1
  | some (network, viaProxy) =>
    wispStream.handleConnectFinish w1 p network viaProxy port hostname env.dialErr

/-- Result of running a task that can block: it is still waiting, or it got as far as the
given state. -/
inductive Pump where
  | blocked
  | ran (w : World)
deriving DecidableEq, Repr

/-- The statement `v--` on a `uint32`: the decrement wraps at zero. -/
def decUint32 (v : Nat) : Nat := (v + 4294967296 - 1) % 4294967296

/-- One pass through the body of the loop `for data := range s.dataQueue` of `handleData`, for
the payload `data` the channel delivered; `writeErr` is whether `s.conn.Write` reports an
error (a closed socket always does). The flag in the result tells whether the loop goes on.
`s.bufferRemaining--` wraps as a `uint32`. -/
def wispStream.handleDataBody (w : World) (p : Nat) (data : List Nat) (writeErr : Bool) :
    Option (World × Bool) := do
  let s ← w.getStream p
  let k ← s.conn
  let sock ← w.sockets[k]?
  if writeErr || decide (0 < sock.closeCalls) then
    let w1 ← wispStream.close w p closeReasonNetworkError
    pure (w1, false)
  else
    let w1 := { w with sockets := w.sockets.set k { sock with written := sock.written ++ [data] } }
    if s.streamType = streamTypeTCP then
      let remaining := decUint32 s.bufferRemaining
      if remaining = 0 then
        let w2 := w1.setStream p { s with bufferRemaining := w.config.BufferRemainingLength }
        let w3 ← wispStream.sendContinue w2 p w.config.BufferRemainingLength
        pure (w3, true)
      else
        pure (w1.setStream p { s with bufferRemaining := remaining }, true)
    else pure (w1, true)

/-- The loop of `handleData` over the payloads the channel delivers, each with the outcome of
its write; the loop ends at the first failed write. -/
def wispStream.handleDataLoop (w : World) (p : Nat) : List (List Nat × Bool) → Option World
  | [] => some w
  | (data, writeErr) :: rest => do
    let (w1, goOn) ← wispStream.handleDataBody w p data writeErr
    if goOn then wispStream.handleDataLoop w1 p rest else pure w1

/-- Embedding of `wispStream.handleData`: the receive from `connEstablished` returns only
once that channel is closed (a nil channel blocks for ever), then `isOpen` is re-checked, then
the loop runs over what the queue delivers. -/
def wispStream.handleData (w : World) (p : Nat) (delivered : List (List Nat × Bool)) :
    Option Pump := do
  let s ← w.getStream p
  match s.connEstablished with
  | Chan.nilChan => pure Pump.blocked
  | Chan.live => pure Pump.blocked
  | Chan.closed =>
    if !s.isOpen then pure (Pump.ran w)
    else
      let w1 ← wispStream.handleDataLoop w p delivered
      pure (Pump.ran w1)

/-- Outcome of one `s.conn.Read(buffer)`. -/
inductive ReadResult where
  | data (bytes : List Nat)
  | eof
  | err
deriving DecidableEq, Repr

/-- The loop of `readFromConnection` over the outcomes of its reads. A slice that was read is
handed to the serializer goroutine, which calls `sendData` on it before the next slice is
handed over; here it does so at once. An error ends the loop and `s.close(closeReason)`
follows; when the list ends without an error the task is waiting in `Read`. -/
def wispStream.readLoop (w : World) (p : Nat) : List ReadResult → Option World
  | [] => some w
  | r :: rest => do
    let s ← w.getStream p
    let k ← s.conn
    let sock ← w.sockets[k]?
    let r1 := if 0 < sock.closeCalls then ReadResult.err else r
    match r1 with
    | ReadResult.data bytes =>
      let w1 ← wispStream.sendData w p (bytes.take w.config.TcpBufferSize.toNat)
      wispStream.readLoop w1 p rest
    | ReadResult.eof => wispStream.close w p closeReasonVoluntary
    | ReadResult.err => wispStream.close w p closeReasonNetworkError

/-- Embedding of `wispStream.readFromConnection`: the two buffers of `TcpBufferSize` bytes are
made (a negative size panics), then the read loop runs. -/
def wispStream.readFromConnection (w : World) (p : Nat) (reads : List ReadResult) :
    Option World :=
  if w.config.TcpBufferSize < 0 then none
  else wispStream.readLoop w p reads

/-! ## Frames on the carrier and states used as concrete inputs -/

/-- The CONTINUE frame `sendContinuePacket` hands to the carrier. -/
def continueFrame (streamId bufferRemaining : Nat) : List Nat :=
  packetTypeContinue :: (putUint32 streamId ++ putUint32 bufferRemaining)

/-- The CLOSE frame `sendClosePacket` hands to the carrier. -/
def closeFrame (streamId reason : Nat) : List Nat :=
  packetTypeClose :: (putUint32 streamId ++ [reason])

/-- The DATA frame `sendDataPacket` hands to the carrier. -/
def dataFrame (streamId : Nat) (data : List Nat) : List Nat :=
  packetTypeData :: (putUint32 streamId ++ data)

/-- What the write loop of `handleData` relies on: the stream is a TCP stream with a live
socket, and its credit counter lies in `1 .. BufferRemainingLength`. -/
def PumpReady (w : World) (p : Nat) (s : wispStream) (k : Nat) (sock : Socket) : Prop :=
  w.getStream p = some s ∧ s.conn = some k ∧ w.sockets[k]? = some sock ∧ sock.closeCalls = 0
    ∧ s.streamType = streamTypeTCP ∧ 1 ≤ s.bufferRemaining
    ∧ s.bufferRemaining ≤ w.config.BufferRemainingLength
    ∧ w.config.BufferRemainingLength < 4294967296

/-- What `wispStream.close` relies on to run to its end: the stream is open, its
`connEstablished` channel has been made (and is closed exactly when the `sync.Once` is done),
it holds no socket yet, and its data queue is not closed. -/
def CloseReady (s : wispStream) : Prop :=
  s.isOpen = true ∧ s.conn = none
    ∧ ((s.connEstablished = Chan.live ∧ s.connEstablishedOnce = false)
        ∨ (s.connEstablished = Chan.closed ∧ s.connEstablishedOnce = true))
    ∧ (∀ q, s.dataQueue = some q → q.closed = false)

/-- A configuration with every policy switch off, a credit window of 2 and read buffers of 16
bytes. -/
def exampleConfig : Config :=
  { DisableUDP := false, TcpBufferSize := 16, BufferRemainingLength := 2, TcpNoDelay := true,
    WebsocketTcpNoDelay := true, BlacklistHostnames := [], WhitelistHostnames := [],
    Proxy := "", WebsocketPermessageDeflate := false, DnsServer := "" }

/-- The example configuration with UDP disabled and a DNS override server set. -/
def udpOffConfig : Config :=
  { exampleConfig with DisableUDP := true, DnsServer := "10.0.0.53:53" }

/-- The CONNECT frame for stream 1, TCP, port 80, hostname "a". -/
def connectFrame : List Nat := createWispPacket packetTypeConnect 1 [streamTypeTCP, 80, 0, 97]

/-- The state of a connection that has nothing but one stream in its table, that stream
being what `handleConnectPacket` stores except that `connEstablished` holds a channel made
with `make(chan struct{})`. The sources never build this value (`handleConnectPacket` leaves
the field nil); it is the stream the functions of wisp-stream.go are written for. -/
def allocatedWorld (config : Config) (streamId : Nat) : World :=
  { World.create config with
    heap := [{ streamId := streamId, streamType := 0, conn := none, bufferRemaining := 0,
               connEstablished := Chan.live, connEstablishedOnce := false,
               dataQueue := some
                 { capacity := config.BufferRemainingLength, items := [], closed := false },
               isOpen := true }],
    streams := [(streamId, 0)] }

/-- A connection whose stream 4 is an open TCP stream after a finished dial: the signal is
released, the credit counter is at the window of 2, and socket 0 is live. -/
def pumpWorld : World :=
  { World.create exampleConfig with
    heap := [{ streamId := 4, streamType := streamTypeTCP, conn := some 0, bufferRemaining := 2,
               connEstablished := Chan.closed, connEstablishedOnce := true,
               dataQueue := some { capacity := 2, items := [], closed := false },
               isOpen := true }],
    streams := [(4, 0)],
    sockets := [{ network := "tcp", hostname := [97], port := "80", viaProxy := false,
                  noDelay := some true, written := [], closeCalls := 0 }] }

/-! ## Runs of a connection -/

/-- One scheduling step of a connection: a callback of the carrier (`OnOpen`, `OnMessage`,
`OnClose`), the carrier starting to fail its writes, one of the goroutines of the package
(the dial task in its two halves, before and after the blocking dial; `handleClose`;
`sendClosePacket`; `readFromConnection`; `handleData`), or a direct call of `close`. The
arguments of a step are not tied to what was launched before, so every interleaving of the
program is among the lists of steps. -/
inductive Step where
  | onOpen
  | onMessage (packet : List Nat)
  | onClose
  | writeFails
  | dialStart (p streamType : Nat) (hostname : List Nat) (lookup : Option String)
      (proxyErr : Bool)
  | dialFinish (p : Nat) (network : String) (viaProxy : Bool) (port : String)
      (hostname : List Nat) (dialErr : Bool)
  | handleClose (p reason : Nat)
  | close (p reason : Nat)
  | sendClosePacket (streamId reason : Nat)
  | readFromConnection (p : Nat) (reads : List ReadResult)
  | handleData (p : Nat) (delivered : List (List Nat × Bool))

/-- The effect of one step; `none` is a run-time fault, which ends the process. -/
def World.step (w : World) : Step → Option World
  | Step.onOpen => some (handler.OnOpen w)
  | Step.onMessage packet => handler.OnMessage w packet
  | Step.onClose => handler.OnClose w
  | Step.writeFails => some { w with wsWriteErr := true }
  | Step.dialStart p streamType hostname lookup proxyErr =>
    (wispStream.handleConnectStart w p streamType hostname lookup proxyErr).map (fun r => r.1)
  | Step.dialFinish p network viaProxy port hostname dialErr =>
    wispStream.handleConnectFinish w p network viaProxy port hostname dialErr
  | Step.handleClose p reason => wispStream.handleClose w p reason
  | Step.close p reason => wispStream.close w p reason
  | Step.sendClosePacket streamId reason =>
    some (wispConnection.sendClosePacket w streamId reason)
  | Step.readFromConnection p reads => wispStream.readFromConnection w p reads
  | Step.handleData p delivered =>
    (wispStream.handleData w p delivered).map
      (fun r => match r with
        | Pump.blocked => w
        | Pump.ran w1 => w1)

/-- The state a list of steps leads to, `none` when one of them faults. -/
def World.run (w : World) (steps : List Step) : Option World :=
  steps.foldlM World.step w

/-- The type byte and the stream id of an emitted frame, read as the peer reads them. -/
def frameHead (f : List Nat) : Option (Nat × Nat) :=
  (parseWispPacket f).map (fun r => (r.1, r.2.1))

/-- In the list of emitted frames (oldest first), no DATA frame of a stream id comes after
a CLOSE frame of the same stream id. -/
def NoDataAfterClose (sent : List (List Nat)) : Prop :=
  ∀ i j id : Nat, i < j → (sent[i]?).bind frameHead = some (packetTypeClose, id) →
    (sent[j]?).bind frameHead ≠ some (packetTypeData, id)

/-- The fields of a stream that the struct literal of `handleConnectPacket` fixes and that no
step changes before a fault: nil `connEstablished`, `sync.Once` not done, open, no socket. -/
def AsCreated (s : wispStream) : Prop :=
  s.connEstablished = Chan.nilChan ∧ s.connEstablishedOnce = false ∧ s.isOpen = true
    ∧ s.conn = none

/-- What holds in every state a run reaches: every stream is as created, and no emitted frame
has the type byte DATA. -/
def RunInv (w : World) : Prop :=
  (∀ s ∈ w.heap, AsCreated s) ∧ (∀ f ∈ w.sent, f[0]? ≠ some packetTypeData)

/-- A run on a fresh connection with the example configuration: the carrier opens, a DATA
frame for the unknown stream 7 arrives and its CLOSE(7, INVALID_INFO) task runs, then
CONNECT for stream 1 arrives, its dial task starts and blocks in the dial, and a DATA frame
for stream 1 arrives. -/
def exampleRun : List Step :=
  [Step.onOpen,
   Step.onMessage (createWispPacket packetTypeData 7 [1]),
   Step.sendClosePacket 7 closeReasonInvalidInfo,
   Step.onMessage connectFrame,
   Step.dialStart 0 streamTypeTCP [97] none false,
   Step.onMessage (createWispPacket packetTypeData 1 [104, 105])]

/-! ## packetUtil.go: decode undoes encode -/

theorem putUint32_value (v : Nat) (h : v < 4294967296) :
    v % 256 + v / 256 % 256 * 256 + v / 65536 % 256 * 65536 + v / 16777216 % 256 * 16777216
      = v := by
  omega

/-- C10: for every type byte `t`, every stream id below 2^32 and every payload `p`,
`parseWispPacket (createWispPacket t id p)` returns `(t, id, p)`; the encoded frame has length
`5 + |p|`, byte 0 is `t`, and bytes 1..4 are `id` in little-endian order. -/
theorem C10_parse_create (t id : Nat) (p : List Nat) (hid : id < 4294967296) :
    parseWispPacket (createWispPacket t id p) = some (t, id, p)
      ∧ (createWispPacket t id p).length = 5 + p.length
      ∧ (createWispPacket t id p)[0]? = some t
      ∧ (createWispPacket t id p)[1]? = some (id % 256)
      ∧ (createWispPacket t id p)[2]? = some (id / 256 % 256)
      ∧ (createWispPacket t id p)[3]? = some (id / 65536 % 256)
      ∧ (createWispPacket t id p)[4]? = some (id / 16777216 % 256) := by
  refine ⟨?_, ?_, ?_, ?_, ?_, ?_, ?_⟩
  · simp only [parseWispPacket, createWispPacket, putUint32, slice, sliceFrom]
    simp [uint32, putUint32_value id hid]
  · simp [createWispPacket, putUint32]; omega
  all_goals simp [createWispPacket, putUint32]

/-- Instance of C10 at type DATA, stream id 258 and payload `[7, 8]`: the frame is
`[2, 2, 1, 0, 0, 7, 8]` and decodes to what was encoded. -/
theorem C10_parse_create_witness :
    258 < 4294967296
      ∧ createWispPacket 2 258 [7, 8] = [2, 2, 1, 0, 0, 7, 8]
      ∧ parseWispPacket (createWispPacket 2 258 [7, 8]) = some (2, 258, [7, 8]) :=
  ⟨by decide, by decide, (C10_parse_create 2 258 [7, 8] (by decide)).1⟩

/-! ## wisp-connection.go: the stream table -/

theorem mapDelete_keys (m : List (Nat × Nat)) (k : Nat) :
    (mapDelete m k).map Prod.fst = (m.map Prod.fst).filter (fun x => x != k) := by
  induction m with
  | nil => rfl
  | cons e m ih =>
    simp only [mapDelete, List.filter_cons, List.map_cons] at ih ⊢
    by_cases h : (e.1 != k) = true
    · simp [h, ih]
    · simp [h, ih]

theorem mapSet_keys_nodup (m : List (Nat × Nat)) (k v : Nat)
    (h : (m.map Prod.fst).Nodup) : ((mapSet m k v).map Prod.fst).Nodup := by
  unfold mapSet
  rw [List.map_append, mapDelete_keys]
  refine List.Nodup.append (h.filter _) (by simp) ?_
  intro x hx hk
  simp at hx hk
  exact hx.2 hk

theorem handleConnectPacket_total (w : World) (streamId : Nat) (payload : List Nat) :
    ∃ w1, wispConnection.handleConnectPacket w streamId payload = some w1
      ∧ ((w.streams.map Prod.fst).Nodup → (w1.streams.map Prod.fst).Nodup) := by
  unfold wispConnection.handleConnectPacket
  by_cases hlen : payload.length < 3
  · simp [hlen]
  · rcases payload with _ | ⟨a, _ | ⟨b, _ | ⟨c, rest⟩⟩⟩
    · simp at hlen
    · simp at hlen
    · simp at hlen
    · by_cases hex : (mapGet w.streams streamId).isSome = true
      · simp [slice, sliceFrom, uint16, hex]
      · have h3 : ¬ (rest.length + 1 + 1 + 1 < 3) := by omega
        simp only [slice, sliceFrom, uint16, hex]
        simp [h3]
        exact mapSet_keys_nodup _ _ _

theorem connects_keep_nodup (cs : List (Nat × List Nat)) :
    ∀ w : World, (w.streams.map Prod.fst).Nodup →
      ∃ w1, cs.foldlM (fun acc c => wispConnection.handleConnectPacket acc c.1 c.2) w = some w1
        ∧ (w1.streams.map Prod.fst).Nodup := by
  induction cs with
  | nil => intro w h; exact ⟨w, rfl, h⟩
  | cons c cs ih =>
    intro w h
    obtain ⟨w1, h1, hn⟩ := handleConnectPacket_total w c.1 c.2
    obtain ⟨w2, h2, hn2⟩ := ih w1 (hn h)
    exact ⟨w2, by simp [List.foldlM, h1, h2], hn2⟩

/-- C1: a CONNECT frame with a payload of at least 3 bytes whose stream id is already a key
of the stream table leaves the whole connection state as it was (the table, every stream, the
emitted frames and the launched tasks); and any sequence of CONNECT frames, applied to a table
with distinct keys, runs without a fault and ends in a table with distinct keys. -/
theorem C1_duplicate_connect_ignored :
    (∀ (w : World) (streamId : Nat) (payload : List Nat),
        3 ≤ payload.length → (mapGet w.streams streamId).isSome = true →
        wispConnection.handleConnectPacket w streamId payload = some w)
    ∧ (∀ (w : World) (cs : List (Nat × List Nat)), (w.streams.map Prod.fst).Nodup →
        ∃ w1, cs.foldlM (fun acc c => wispConnection.handleConnectPacket acc c.1 c.2) w = some w1
          ∧ (w1.streams.map Prod.fst).Nodup) := by
  refine ⟨?_, fun w cs h => connects_keep_nodup cs w h⟩
  intro w streamId payload hlen hex
  unfold wispConnection.handleConnectPacket
  rcases payload with _ | ⟨a, _ | ⟨b, _ | ⟨c, rest⟩⟩⟩
  · simp at hlen
  · simp at hlen
  · simp at hlen
  · simp [slice, sliceFrom, uint16, hex]

/-- Instance of C1: on the connection that already holds stream 4, a second CONNECT for
stream 4 (UDP, port 53, hostname "b") changes nothing. -/
theorem C1_duplicate_connect_ignored_witness :
    wispConnection.handleConnectPacket pumpWorld 4 [streamTypeUDP, 53, 0, 98] = some pumpWorld :=
  C1_duplicate_connect_ignored.1 pumpWorld 4 [streamTypeUDP, 53, 0, 98] (by decide) (by decide)

/-! ## wisp.go: malformed frames -/

/-- C9: a frame shorter than 5 bytes, a frame whose type byte is none of CONNECT, DATA and
CLOSE, a CONNECT frame whose payload has fewer than 3 bytes and a CLOSE frame with an empty
payload are each handled by `OnMessage` without a fault and leave the whole connection state
(table, streams, emitted frames, launched tasks) as it was. -/
theorem C9_malformed_dropped (w : World) (packet : List Nat)
    (h : packet.length < 5
      ∨ (packet[0]? ≠ some packetTypeConnect ∧ packet[0]? ≠ some packetTypeData
          ∧ packet[0]? ≠ some packetTypeClose)
      ∨ (packet[0]? = some packetTypeConnect ∧ (packet.drop 5).length < 3)
      ∨ (packet[0]? = some packetTypeClose ∧ (packet.drop 5).length < 1)) :
    handler.OnMessage w packet = some w := by
  unfold handler.OnMessage
  by_cases hlen : packet.length < 5
  · simp [hlen]
  · rcases packet with _ | ⟨t, _ | ⟨b0, _ | ⟨b1, _ | ⟨b2, _ | ⟨b3, payload⟩⟩⟩⟩⟩
    · simp at hlen
    · simp at hlen
    · simp at hlen
    · simp at hlen
    · simp at hlen
    · simp only [hlen, if_false, parseWispPacket, slice, sliceFrom, uint32]
      simp only [List.getElem?_cons_zero, List.length_cons, List.drop_succ_cons,
        List.drop_zero] at h ⊢
      simp [wispConnection.handlePacket]
      rcases h with h | h | h | h
      · omega
      · simp at h
        simp [h.1, h.2.1, h.2.2]
      · simp at h
        simp [h.1, wispConnection.handleConnectPacket, h.2]
      · simp at h
        simp [h.1, packetTypeClose, packetTypeConnect, packetTypeData,
          wispConnection.handleClosePacket, h.2]

/-- Instance of C9: a CONNECT frame for stream 9 with the 2-byte payload `[1, 80]` is dropped
by the connection that holds stream 4. -/
theorem C9_malformed_dropped_witness :
    handler.OnMessage pumpWorld [1, 9, 0, 0, 0, 1, 80] = some pumpWorld :=
  C9_malformed_dropped pumpWorld [1, 9, 0, 0, 0, 1, 80]
    (Or.inr (Or.inr (Or.inl ⟨by decide, by decide⟩)))

/-! ## wisp-stream.go: the write loop of `handleData` -/

theorem getStream_setStream (w : World) (p : Nat) (s1 : wispStream)
    (h : p < w.heap.length) : (w.setStream p s1).getStream p = some s1 := by
  simp [World.getStream, World.setStream, h]

theorem getStream_lt (w : World) (p : Nat) (s : wispStream) (h : w.getStream p = some s) :
    p < w.heap.length :=
  (List.getElem?_eq_some_iff.mp h).1

theorem decUint32_eq (v : Nat) (h1 : 1 ≤ v) (h2 : v < 4294967296) : decUint32 v = v - 1 := by
  unfold decUint32
  omega

theorem body_eq_refresh (w : World) (p : Nat) (s : wispStream) (k : Nat) (sock : Socket)
    (data : List Nat) (hs : w.getStream p = some s) (hc : s.conn = some k)
    (hk : w.sockets[k]? = some sock) (hcl : sock.closeCalls = 0)
    (htcp : s.streamType = streamTypeTCP) (hone : s.bufferRemaining = 1) :
    wispStream.handleDataBody w p data false
      = some (wispConnection.sendContinuePacket
        (World.setStream
          { w with sockets := w.sockets.set k { sock with written := sock.written ++ [data] } }
          p { s with bufferRemaining := w.config.BufferRemainingLength })
        s.streamId w.config.BufferRemainingLength, true) := by
  have hplt : p < w.heap.length := getStream_lt w p s hs
  have hrem : decUint32 s.bufferRemaining = 0 := by
    rw [decUint32_eq _ (by omega) (by omega)]
    omega
  obtain ⟨sid, st, cn, br, ce, ceo, dq, io⟩ := s
  obtain ⟨nw, hn, pt, vp, nd, wr, cc⟩ := sock
  simp only at hc htcp hcl hrem
  subst hc htcp hcl
  simp [wispStream.handleDataBody, hs, hk, hrem, wispStream.sendContinue,
    getStream_setStream, hplt]

theorem body_eq_count (w : World) (p : Nat) (s : wispStream) (k : Nat) (sock : Socket)
    (data : List Nat) (hs : w.getStream p = some s) (hc : s.conn = some k)
    (hk : w.sockets[k]? = some sock) (hcl : sock.closeCalls = 0)
    (htcp : s.streamType = streamTypeTCP) (h2 : 2 ≤ s.bufferRemaining)
    (hlt : s.bufferRemaining < 4294967296) :
    wispStream.handleDataBody w p data false
      = some (World.setStream
          { w with sockets := w.sockets.set k { sock with written := sock.written ++ [data] } }
          p { s with bufferRemaining := s.bufferRemaining - 1 }, true) := by
  have hrem : decUint32 s.bufferRemaining = s.bufferRemaining - 1 :=
    decUint32_eq _ (by omega) hlt
  have hne : ¬ (s.bufferRemaining - 1 = 0) := by omega
  obtain ⟨sid, st, cn, br, ce, ceo, dq, io⟩ := s
  obtain ⟨nw, hn, pt, vp, nd, wr, cc⟩ := sock
  simp only at hc htcp hcl hrem hne h2 hlt
  subst hc htcp hcl
  simp [wispStream.handleDataBody, hs, hk, hrem, hne]

theorem sendPacket_fields (w : World) (t id : Nat) (payload : List Nat) :
    (wispConnection.sendPacket w t id payload).heap = w.heap
      ∧ (wispConnection.sendPacket w t id payload).sockets = w.sockets
      ∧ (wispConnection.sendPacket w t id payload).config = w.config
      ∧ (wispConnection.sendPacket w t id payload).streams = w.streams
      ∧ (wispConnection.sendPacket w t id payload).tasks = w.tasks
      ∧ (wispConnection.sendPacket w t id payload).sent
          = w.sent ++ [t :: (putUint32 id ++ payload)] := by
  unfold wispConnection.sendPacket wispConnection.close
  split <;> simp

theorem handleDataBody_ok (w : World) (p : Nat) (s : wispStream) (k : Nat) (sock : Socket)
    (data : List Nat) (h : PumpReady w p s k sock) :
    ∃ w1 s1 sock1,
      wispStream.handleDataBody w p data false = some (w1, true)
      ∧ PumpReady w1 p s1 k sock1
      ∧ w1.config = w.config
      ∧ s1.streamId = s.streamId
      ∧ sock1.written = sock.written ++ [data]
      ∧ s1.bufferRemaining
          = (if s.bufferRemaining = 1 then w.config.BufferRemainingLength
             else s.bufferRemaining - 1)
      ∧ w1.sent = w.sent ++
          (if s.bufferRemaining = 1
            then [continueFrame s.streamId w.config.BufferRemainingLength] else []) := by
  obtain ⟨hs, hc, hk, hcl, htcp, hb1, hbN, hN⟩ := h
  have hklt : k < w.sockets.length := (List.getElem?_eq_some_iff.mp hk).1
  have hplt : p < w.heap.length := getStream_lt w p s hs
  by_cases hone : s.bufferRemaining = 1
  · obtain ⟨f1, f2, f3, -, -, f6⟩ := sendPacket_fields
      (World.setStream
        { w with sockets := w.sockets.set k { sock with written := sock.written ++ [data] } }
        p { s with bufferRemaining := w.config.BufferRemainingLength })
      packetTypeContinue s.streamId (putUint32 w.config.BufferRemainingLength)
    refine ⟨_, { s with bufferRemaining := w.config.BufferRemainingLength },
      { sock with written := sock.written ++ [data] },
      body_eq_refresh w p s k sock data hs hc hk hcl htcp hone, ?_, ?_, rfl, rfl, ?_, ?_⟩
    · refine ⟨?_, hc, ?_, hcl, htcp, ?_, ?_, ?_⟩
      · unfold World.getStream wispConnection.sendContinuePacket
        rw [f1]
        simp [World.setStream, hplt]
      · unfold wispConnection.sendContinuePacket
        rw [f2]
        simp [World.setStream, hklt]
      · show 1 ≤ w.config.BufferRemainingLength
        omega
      · unfold wispConnection.sendContinuePacket
        rw [f3]
        exact Nat.le_refl _
      · unfold wispConnection.sendContinuePacket
        rw [f3]
        exact hN
    · unfold wispConnection.sendContinuePacket
      rw [f3]
      rfl
    · simp [hone]
    · unfold wispConnection.sendContinuePacket
      rw [f6, if_pos hone]
      rfl
  · refine ⟨_, { s with bufferRemaining := s.bufferRemaining - 1 },
      { sock with written := sock.written ++ [data] },
      body_eq_count w p s k sock data hs hc hk hcl htcp (by omega) (by omega),
      ?_, rfl, rfl, rfl, ?_, ?_⟩
    · refine ⟨?_, hc, ?_, hcl, htcp, ?_, ?_, hN⟩
      · simp [World.getStream, World.setStream, hplt]
      · simp [World.setStream, hklt]
      · show 1 ≤ s.bufferRemaining - 1
        omega
      · show s.bufferRemaining - 1 ≤ w.config.BufferRemainingLength
        omega
    · simp [hone]
    · simp [World.setStream, hone]

theorem credit_step (N b m : Nat) (hb1 : 1 ≤ b) (hbN : b ≤ N) :
    (N - (if b = 1 then N else b - 1) + m) / N + (if b = 1 then 1 else 0)
        = (N - b + (m + 1)) / N
      ∧ (N - (if b = 1 then N else b - 1) + m) % N = (N - b + (m + 1)) % N := by
  have hNpos : 0 < N := by omega
  by_cases h : b = 1
  · subst h
    have e : N - 1 + (m + 1) = m + N := by omega
    rw [if_pos rfl, if_pos rfl, Nat.sub_self, Nat.zero_add, e, Nat.add_div_right m hNpos,
      Nat.add_mod_right]
    exact ⟨rfl, rfl⟩
  · have e : N - (b - 1) + m = N - b + (m + 1) := by omega
    rw [if_neg h, if_neg h, e]
    exact ⟨rfl, rfl⟩

theorem handleDataLoop_credit (p k : Nat) (ds : List (List Nat)) :
    ∀ (w : World) (s : wispStream) (sock : Socket), PumpReady w p s k sock →
      ∃ w1 s1 sock1,
        wispStream.handleDataLoop w p (ds.map (fun d => (d, false))) = some w1
        ∧ PumpReady w1 p s1 k sock1
        ∧ w1.config = w.config
        ∧ s1.streamId = s.streamId
        ∧ sock1.written = sock.written ++ ds
        ∧ s1.bufferRemaining = w.config.BufferRemainingLength
            - (w.config.BufferRemainingLength - s.bufferRemaining + ds.length)
                % w.config.BufferRemainingLength
        ∧ w1.sent = w.sent ++ List.replicate
            ((w.config.BufferRemainingLength - s.bufferRemaining + ds.length)
                / w.config.BufferRemainingLength)
            (continueFrame s.streamId w.config.BufferRemainingLength) := by
  induction ds with
  | nil =>
    intro w s sock h
    have hb1 := h.2.2.2.2.2.1
    have hbN := h.2.2.2.2.2.2.1
    refine ⟨w, s, sock, rfl, h, rfl, rfl, by simp, ?_, ?_⟩
    · simp only [List.length_nil, Nat.add_zero]
      rw [Nat.mod_eq_of_lt (by omega)]
      omega
    · simp only [List.length_nil, Nat.add_zero]
      rw [Nat.div_eq_of_lt (by omega)]
      simp
  | cons d ds ih =>
    intro w s sock h
    have hb1 := h.2.2.2.2.2.1
    have hbN := h.2.2.2.2.2.2.1
    obtain ⟨w1, s1, sock1, e1, r1, c1, i1, wr1, b1, se1⟩ := handleDataBody_ok w p s k sock d h
    obtain ⟨w2, s2, sock2, e2, r2, c2, i2, wr2, b2, se2⟩ := ih w1 s1 sock1 r1
    obtain ⟨q1, q2⟩ := credit_step w.config.BufferRemainingLength s.bufferRemaining ds.length
      hb1 hbN
    refine ⟨w2, s2, sock2, ?_, r2, c2.trans c1, i2.trans i1, ?_, ?_, ?_⟩
    · simp only [List.map_cons, wispStream.handleDataLoop, e1, Option.bind_eq_bind,
        Option.some_bind, if_true]
      exact e2
    · rw [wr2, wr1]; simp
    · rw [b2, c1, b1, List.length_cons, q2]
    · rw [se2, se1, c1, b1, i1, List.length_cons, ← q1, List.append_assoc]
      congr 1
      by_cases hone : s.bufferRemaining = 1
      · simp only [hone, if_true]
        rw [List.replicate_succ]
        simp
      · simp [hone]

/-- C3: on a TCP stream whose dial has finished (signal released, stream open, live socket,
credit counter at the configured window `N` with `1 ≤ N < 2^32`), `handleData` given any `m`
payloads whose socket writes all succeed runs to the end of them, the socket has received the
`m` payloads in order, and the frames emitted are exactly `m / N` CONTINUE frames for the
stream id, each carrying `N` as a little-endian u32. Since this holds for every `m`, the k-th
CONTINUE frame is emitted in the pass that makes write `k * N`. -/
theorem C3_credit_accounting (w : World) (p : Nat) (s : wispStream) (k : Nat) (sock : Socket)
    (ds : List (List Nat))
    (hs : w.getStream p = some s) (hsig : s.connEstablished = Chan.closed)
    (hopen : s.isOpen = true) (htcp : s.streamType = streamTypeTCP)
    (hc : s.conn = some k) (hk : w.sockets[k]? = some sock) (hcl : sock.closeCalls = 0)
    (hN : 1 ≤ w.config.BufferRemainingLength)
    (hN32 : w.config.BufferRemainingLength < 4294967296)
    (hb : s.bufferRemaining = w.config.BufferRemainingLength) :
    ∃ w1 sock1,
      wispStream.handleData w p (ds.map (fun d => (d, false))) = some (Pump.ran w1)
      ∧ w1.sockets[k]? = some sock1
      ∧ sock1.written = sock.written ++ ds
      ∧ sock1.closeCalls = 0
      ∧ w1.sent = w.sent ++ List.replicate (ds.length / w.config.BufferRemainingLength)
          (continueFrame s.streamId w.config.BufferRemainingLength) := by
  have hready : PumpReady w p s k sock :=
    ⟨hs, hc, hk, hcl, htcp, by omega, by omega, hN32⟩
  obtain ⟨w1, s1, sock1, e1, r1, -, -, wr1, -, se1⟩ := handleDataLoop_credit p k ds w s sock hready
  refine ⟨w1, sock1, ?_, r1.2.2.1, wr1, r1.2.2.2.1, ?_⟩
  · simp [wispStream.handleData, hs, hsig, hopen, e1]
  · rw [se1, hb, Nat.sub_self, Nat.zero_add]

/-- Instance of C3 with window 2 and three payloads: the socket receives the three payloads
in order and exactly one CONTINUE frame (stream 4, value 2) is emitted. -/
theorem C3_credit_accounting_witness :
    ∃ w1 sock1,
      wispStream.handleData pumpWorld 0 ([[1], [2], [3]].map (fun d => (d, false)))
        = some (Pump.ran w1)
      ∧ w1.sockets[0]? = some sock1
      ∧ sock1.written = [] ++ [[1], [2], [3]]
      ∧ sock1.closeCalls = 0
      ∧ w1.sent = [] ++ List.replicate (3 / 2) (continueFrame 4 2) :=
  C3_credit_accounting pumpWorld 0
    { streamId := 4, streamType := streamTypeTCP, conn := some 0, bufferRemaining := 2,
      connEstablished := Chan.closed, connEstablishedOnce := true,
      dataQueue := some { capacity := 2, items := [], closed := false }, isOpen := true } 0
    { network := "tcp", hostname := [97], port := "80", viaProxy := false,
      noDelay := some true, written := [], closeCalls := 0 }
    [[1], [2], [3]] rfl rfl rfl rfl rfl rfl rfl (by decide) (by decide) rfl

/-! ## wisp-stream.go: a stream whose `connEstablished` channel was never made -/

theorem signal_nil_faults (w : World) (p : Nat) (s : wispStream)
    (hs : w.getStream p = some s) (hn : s.connEstablished = Chan.nilChan)
    (ho : s.connEstablishedOnce = false) :
    wispStream.signalConnectionAttemptDone w p = none := by
  simp [wispStream.signalConnectionAttemptDone, hs, hn, ho]

theorem close_nil_faults (w : World) (p : Nat) (s : wispStream) (reason : Nat)
    (hs : w.getStream p = some s) (hn : s.connEstablished = Chan.nilChan)
    (ho : s.connEstablishedOnce = false) (hopen : s.isOpen = true) :
    wispStream.close w p reason = none := by
  have hplt : p < w.heap.length := getStream_lt w p s hs
  have h1 : wispStream.signalConnectionAttemptDone (w.setStream p { s with isOpen := false }) p
      = none :=
    signal_nil_faults _ p { s with isOpen := false } (getStream_setStream w p _ hplt) hn ho
  simp [wispStream.close, hs, hopen, h1]

theorem handleConnectBefore_nil (w : World) (p : Nat) (s : wispStream) (streamType : Nat)
    (hostname : List Nat) (lookup : Option String) (proxyErr : Bool)
    (hs : w.getStream p = some s) (hn : s.connEstablished = Chan.nilChan)
    (ho : s.connEstablishedOnce = false) (hopen : s.isOpen = true) :
    wispStream.handleConnectBefore w p streamType hostname lookup proxyErr = none
      ∨ ∃ d, wispStream.handleConnectBefore w p streamType hostname lookup proxyErr
          = some (w.setStream p { s with streamType := streamType,
                                         bufferRemaining := w.config.BufferRemainingLength },
              some d) := by
  have hplt : p < w.heap.length := getStream_lt w p s hs
  have hcl : ∀ r, wispStream.close w p r = none :=
    fun r => close_nil_faults w p s r hs hn ho hopen
  have hcl2 : ∀ r, wispStream.close
      (w.setStream p { s with streamType := streamType,
                              bufferRemaining := w.config.BufferRemainingLength }) p r = none :=
    fun r => close_nil_faults _ p _ r (getStream_setStream w p _ hplt) hn ho hopen
  unfold wispStream.handleConnectBefore
  simp only [hs, Option.bind_eq_bind, Option.some_bind, hcl, Option.none_bind,
    wispStream.armStream, Option.pure_def]
  split
  · exact Or.inl rfl
  · split
    · exact Or.inl rfl
    · simp only [hcl2, Option.none_bind]
      split
      · split
        · split
          · exact Or.inl rfl
          · exact Or.inr ⟨_, rfl⟩
        · exact Or.inr ⟨_, rfl⟩
      · split
        · split
          · exact Or.inl rfl
          · exact Or.inr ⟨_, rfl⟩
        · exact Or.inl rfl

theorem handleConnectFinish_nil (w : World) (p : Nat) (s : wispStream) (network : String)
    (viaProxy : Bool) (port : String) (hostname : List Nat) (dialErr : Bool)
    (hs : w.getStream p = some s) (hn : s.connEstablished = Chan.nilChan)
    (ho : s.connEstablishedOnce = false) (hopen : s.isOpen = true) :
    wispStream.handleConnectFinish w p network viaProxy port hostname dialErr = none := by
  have hplt : p < w.heap.length := getStream_lt w p s hs
  have hcl : wispStream.close (w.setStream p { s with conn := none }) p closeReasonNetworkError
      = none :=
    close_nil_faults _ p _ _ (getStream_setStream w p _ hplt) hn ho hopen
  unfold wispStream.handleConnectFinish wispStream.handleConnectAfter
  simp only [hs, Option.bind_eq_bind, Option.some_bind, hcl, Option.pure_def]
  split
  · rfl
  · split
    · split
      · apply signal_nil_faults _ p { s with conn := some w.sockets.length } _ hn ho
        simp [World.getStream, World.setStream, hplt]
      · rfl
    · apply signal_nil_faults _ p { s with conn := some w.sockets.length } _ hn ho
      simp [World.getStream, World.setStream, hplt]

theorem handleConnect_nil_faults (w : World) (p : Nat) (s : wispStream) (streamType : Nat)
    (port : String) (hostname : List Nat) (env : DialEnv)
    (hs : w.getStream p = some s) (hn : s.connEstablished = Chan.nilChan)
    (ho : s.connEstablishedOnce = false) (hopen : s.isOpen = true) :
    wispStream.handleConnect w p streamType port hostname env = none := by
  have hplt : p < w.heap.length := getStream_lt w p s hs
  unfold wispStream.handleConnect wispStream.handleConnectStart
  rcases handleConnectBefore_nil w p s streamType hostname env.lookup env.proxyErr hs hn ho hopen
    with h | ⟨⟨network, viaProxy⟩, h⟩
  · simp [h]
  · simp only [h, Option.bind_eq_bind, Option.some_bind, Option.pure_def]
    exact handleConnectFinish_nil _ p _ network viaProxy port hostname env.dialErr
      (getStream_setStream w p _ hplt) hn ho hopen

theorem mapGet_mapDelete (m : List (Nat × Nat)) (k : Nat) : mapGet (mapDelete m k) k = none := by
  induction m with
  | nil => rfl
  | cons e m ih =>
    obtain ⟨a, b⟩ := e
    unfold mapGet mapDelete at ih ⊢
    by_cases h : a = k
    · simp [List.filter_cons, h, ih]
    · have hk : (k == a) = false := by simpa using fun e => h e.symm
      simp [List.filter_cons, h, List.lookup_cons, hk, ih]

theorem mapGet_mapSet (m : List (Nat × Nat)) (k v : Nat) : mapGet (mapSet m k v) k = some v := by
  have h := mapGet_mapDelete m k
  unfold mapGet at h
  simp [mapSet, mapGet, List.lookup_append, h, List.lookup_cons]

theorem created_getStream (w : World) (s : wispStream) (streams : List (Nat × Nat))
    (tasks : List Task) :
    World.getStream { w with heap := w.heap ++ [s], streams := streams, tasks := tasks }
      w.heap.length = some s := by
  simp [World.getStream]

theorem handleConnectPacket_creates (w : World) (streamId streamType p0 p1 : Nat)
    (hostname : List Nat) (habs : mapGet w.streams streamId = none) :
    wispConnection.handleConnectPacket w streamId (streamType :: p0 :: p1 :: hostname)
      = some { w with
          heap := w.heap ++
            [{ streamId := streamId, streamType := 0, conn := none, bufferRemaining := 0,
               connEstablished := Chan.nilChan, connEstablishedOnce := false,
               dataQueue := some
                 { capacity := w.config.BufferRemainingLength, items := [], closed := false },
               isOpen := true }],
          streams := mapSet w.streams streamId w.heap.length,
          tasks := w.tasks ++
            [Task.handleConnect w.heap.length streamType (Nat.repr (p0 + p1 * 256))
              hostname] } := by
  have h3 : ¬ (hostname.length + 1 + 1 + 1 < 3) := by omega
  unfold wispConnection.handleConnectPacket
  simp only [slice, sliceFrom, uint16, habs]
  simp [h3]

/-- C7, refuted on the sources: a CONNECT frame for a stream id that is not in the table makes
`handleConnectPacket` store a stream whose `connEstablished` field is the nil channel (the
struct literal does not set it and nothing assigns it later) with the `sync.Once` not yet done.
The first `signalConnectionAttemptDone` on that stream closes a nil channel, which is a
run-time fault, and so does every run of the dial task `handleConnect`, whatever the DNS and
dial results are. -/
theorem C7_created_stream_has_nil_signal (w : World) (streamId streamType p0 p1 : Nat)
    (hostname : List Nat) (habs : mapGet w.streams streamId = none) :
    ∃ w1 s,
      wispConnection.handleConnectPacket w streamId (streamType :: p0 :: p1 :: hostname)
        = some w1
      ∧ mapGet w1.streams streamId = some w.heap.length
      ∧ w1.getStream w.heap.length = some s
      ∧ s.isOpen = true
      ∧ s.connEstablished = Chan.nilChan
      ∧ s.connEstablishedOnce = false
      ∧ wispStream.signalConnectionAttemptDone w1 w.heap.length = none
      ∧ (∀ port env,
          wispStream.handleConnect w1 w.heap.length streamType port hostname env = none) := by
  refine ⟨_,
    { streamId := streamId, streamType := 0, conn := none, bufferRemaining := 0,
      connEstablished := Chan.nilChan, connEstablishedOnce := false,
      dataQueue := some
        { capacity := w.config.BufferRemainingLength, items := [], closed := false },
      isOpen := true },
    handleConnectPacket_creates w streamId streamType p0 p1 hostname habs,
    mapGet_mapSet _ _ _, ?_, rfl, rfl, rfl, ?_, ?_⟩
  · exact created_getStream w _ _ _
  · exact signal_nil_faults _ _ _ (created_getStream w _ _ _) rfl rfl
  · intro port env
    exact handleConnect_nil_faults _ _ _ streamType port hostname env
      (created_getStream w _ _ _) rfl rfl rfl

/-- Instance of C7 on a fresh connection: after the CONNECT frame for stream 1 (TCP, port 80,
hostname "a") the stream at pointer 0 has a nil `connEstablished`, and
`signalConnectionAttemptDone` and `handleConnect` fault on it. -/
theorem C7_created_stream_has_nil_signal_witness :
    ∃ w1 s,
      wispConnection.handleConnectPacket (World.create exampleConfig) 1
        (streamTypeTCP :: 80 :: 0 :: [97]) = some w1
      ∧ mapGet w1.streams 1 = some 0
      ∧ w1.getStream 0 = some s
      ∧ s.isOpen = true
      ∧ s.connEstablished = Chan.nilChan
      ∧ s.connEstablishedOnce = false
      ∧ wispStream.signalConnectionAttemptDone w1 0 = none
      ∧ (∀ port env, wispStream.handleConnect w1 0 streamTypeTCP port [97] env = none) :=
  C7_created_stream_has_nil_signal (World.create exampleConfig) 1 streamTypeTCP 80 0 [97] rfl

/-- C2, refuted on the sources: on the stream that `handleConnectPacket` stores for a CONNECT
frame, the first `close(r1)` does not run to its end. It sets `isOpen` to false and then
faults in `signalConnectionAttemptDone` (close of a nil channel) before the table entry is
deleted, before the queue is closed and before any CLOSE frame is sent; so no CLOSE frame
carrying `r1` is emitted, and there is no state in which a second `close(r2)` could run. -/
theorem C2_close_faults_on_created_stream (w : World) (streamId streamType p0 p1 : Nat)
    (hostname : List Nat) (r1 : Nat) (habs : mapGet w.streams streamId = none) :
    ∃ w1 s,
      wispConnection.handleConnectPacket w streamId (streamType :: p0 :: p1 :: hostname)
        = some w1
      ∧ w1.getStream w.heap.length = some s
      ∧ s.isOpen = true
      ∧ w1.sent = w.sent
      ∧ wispStream.close w1 w.heap.length r1 = none := by
  refine ⟨_,
    { streamId := streamId, streamType := 0, conn := none, bufferRemaining := 0,
      connEstablished := Chan.nilChan, connEstablishedOnce := false,
      dataQueue := some
        { capacity := w.config.BufferRemainingLength, items := [], closed := false },
      isOpen := true },
    handleConnectPacket_creates w streamId streamType p0 p1 hostname habs,
    ?_, rfl, rfl, ?_⟩
  · exact created_getStream w _ _ _
  · exact close_nil_faults _ _ _ r1 (created_getStream w _ _ _) rfl rfl rfl

/-- Instance of C2 on a fresh connection: CONNECT for stream 1, then `close(VOLUNTARY)` on the
stored stream faults. -/
theorem C2_close_faults_on_created_stream_witness :
    ∃ w1 s,
      wispConnection.handleConnectPacket (World.create exampleConfig) 1
        (streamTypeTCP :: 80 :: 0 :: [97]) = some w1
      ∧ w1.getStream 0 = some s
      ∧ s.isOpen = true
      ∧ w1.sent = []
      ∧ wispStream.close w1 0 closeReasonVoluntary = none :=
  C2_close_faults_on_created_stream (World.create exampleConfig) 1 streamTypeTCP 80 0 [97]
    closeReasonVoluntary rfl

/-! ## The inbound pump is never started -/

theorem handleConnectPacket_no_handleData (w w1 : World) (streamId : Nat) (payload : List Nat)
    (h : wispConnection.handleConnectPacket w streamId payload = some w1) (q : Nat)
    (hq : Task.handleData q ∈ w1.tasks) : Task.handleData q ∈ w.tasks := by
  unfold wispConnection.handleConnectPacket at h
  split at h
  · cases h; exact hq
  · rcases payload with _ | ⟨a, _ | ⟨b, _ | ⟨c, rest⟩⟩⟩
    · simp at h
    · simp [slice] at h
    · simp [slice] at h
    · simp only [slice, sliceFrom, uint16] at h
      simp at h
      split at h
      · cases h; exact hq
      · simp at h
        subst h
        simpa using hq

theorem handleDataPacket_no_handleData (w w1 : World) (streamId : Nat) (payload : List Nat)
    (h : wispConnection.handleDataPacket w streamId payload = some w1) (q : Nat)
    (hq : Task.handleData q ∈ w1.tasks) : Task.handleData q ∈ w.tasks := by
  unfold wispConnection.handleDataPacket at h
  split at h
  · simp at h
    subst h
    simpa using hq
  · cases hg : w.getStream ‹Nat› with
    | none => simp [hg] at h
    | some s =>
      simp only [hg, Option.bind_eq_bind, Option.some_bind] at h
      split at h
      · cases h; exact hq
      · split at h
        · cases h; exact hq
        · split at h
          · simp at h
          · split at h
            · cases h; exact hq
            · cases h; exact hq

theorem handleClosePacket_no_handleData (w w1 : World) (streamId : Nat) (payload : List Nat)
    (h : wispConnection.handleClosePacket w streamId payload = some w1) (q : Nat)
    (hq : Task.handleData q ∈ w1.tasks) : Task.handleData q ∈ w.tasks := by
  unfold wispConnection.handleClosePacket at h
  split at h
  · cases h; exact hq
  · cases hp : payload[0]? with
    | none => simp [hp] at h
    | some r =>
      simp only [hp, Option.bind_eq_bind, Option.some_bind] at h
      split at h
      · cases h; exact hq
      · simp at h
        subst h
        simpa using hq

theorem OnMessage_no_handleData (w w1 : World) (packet : List Nat)
    (h : handler.OnMessage w packet = some w1) (q : Nat)
    (hq : Task.handleData q ∈ w1.tasks) : Task.handleData q ∈ w.tasks := by
  unfold handler.OnMessage at h
  split at h
  · cases h; exact hq
  · cases hp : parseWispPacket packet with
    | none => simp [hp] at h
    | some r =>
      obtain ⟨t, id, payload⟩ := r
      simp only [hp, Option.bind_eq_bind, Option.some_bind] at h
      unfold wispConnection.handlePacket at h
      split at h
      · exact handleConnectPacket_no_handleData w w1 id payload h q hq
      · split at h
        · exact handleDataPacket_no_handleData w w1 id payload h q hq
        · split at h
          · exact handleClosePacket_no_handleData w w1 id payload h q hq
          · cases h; exact hq

/-- C4, refuted on the sources: `handleConnectPacket` launches one task for the stream it
stores, the dial task `handleConnect`, and no `handleData` task (the sources hold no call of
`handleData` at all). A DATA frame for the stream is then accepted by `handleDataPacket` into
the data queue, where it stays: no task is launched for it and no socket is written, so the
accepted payloads never reach the outbound socket. -/
theorem C4_inbound_pump_never_started (w : World) (streamId streamType p0 p1 : Nat)
    (hostname payload : List Nat) (habs : mapGet w.streams streamId = none)
    (hN : 1 ≤ w.config.BufferRemainingLength) :
    ∃ w1 w2 s2 q,
      wispConnection.handleConnectPacket w streamId (streamType :: p0 :: p1 :: hostname)
        = some w1
      ∧ w1.tasks = w.tasks ++
          [Task.handleConnect w.heap.length streamType (Nat.repr (p0 + p1 * 256)) hostname]
      ∧ wispConnection.handleDataPacket w1 streamId payload = some w2
      ∧ w2.getStream w.heap.length = some s2
      ∧ s2.dataQueue = some q
      ∧ q.items = [payload]
      ∧ w2.tasks = w1.tasks
      ∧ w2.sockets = w.sockets
      ∧ (∀ p, Task.handleData p ∈ w2.tasks → Task.handleData p ∈ w.tasks) := by
  have hN0 : 0 < w.config.BufferRemainingLength := hN
  have h1 := handleConnectPacket_creates w streamId streamType p0 p1 hostname habs
  have hlen : w.heap.length < (w.heap ++
      [({ streamId := streamId, streamType := 0, conn := none, bufferRemaining := 0,
          connEstablished := Chan.nilChan, connEstablishedOnce := false,
          dataQueue := some
            { capacity := w.config.BufferRemainingLength, items := [], closed := false },
          isOpen := true } : wispStream)]).length := by
    simp
  refine ⟨_,
    World.setStream
      { w with
        heap := w.heap ++
          [{ streamId := streamId, streamType := 0, conn := none, bufferRemaining := 0,
             connEstablished := Chan.nilChan, connEstablishedOnce := false,
             dataQueue := some
               { capacity := w.config.BufferRemainingLength, items := [], closed := false },
             isOpen := true }],
        streams := mapSet w.streams streamId w.heap.length,
        tasks := w.tasks ++
          [Task.handleConnect w.heap.length streamType (Nat.repr (p0 + p1 * 256)) hostname] }
      w.heap.length
      { streamId := streamId, streamType := 0, conn := none, bufferRemaining := 0,
        connEstablished := Chan.nilChan, connEstablishedOnce := false,
        dataQueue := some
          { capacity := w.config.BufferRemainingLength, items := [payload], closed := false },
        isOpen := true },
    { streamId := streamId, streamType := 0, conn := none, bufferRemaining := 0,
      connEstablished := Chan.nilChan, connEstablishedOnce := false,
      dataQueue := some
        { capacity := w.config.BufferRemainingLength, items := [payload], closed := false },
      isOpen := true },
    { capacity := w.config.BufferRemainingLength, items := [payload], closed := false },
    h1, rfl, ?_, ?_, rfl, rfl, rfl, rfl, ?_⟩
  · unfold wispConnection.handleDataPacket
    simp only [mapGet_mapSet, created_getStream, Option.bind_eq_bind, Option.some_bind]
    simp [hN0]
  · exact getStream_setStream _ _ _ hlen
  · intro p hp
    simpa [World.setStream] using hp

/-- Instance of C4 on a fresh connection: CONNECT for stream 1 (TCP, port 80, hostname "a"),
then a DATA frame with payload `[104, 105]`. The only task is the dial task, the payload is in
the queue of the stream, and there is no socket. -/
theorem C4_inbound_pump_never_started_witness :
    ∃ w1 w2 s2 q,
      wispConnection.handleConnectPacket (World.create exampleConfig) 1
        (streamTypeTCP :: 80 :: 0 :: [97]) = some w1
      ∧ w1.tasks = [] ++ [Task.handleConnect 0 streamTypeTCP (Nat.repr (80 + 0 * 256)) [97]]
      ∧ wispConnection.handleDataPacket w1 1 [104, 105] = some w2
      ∧ w2.getStream 0 = some s2
      ∧ s2.dataQueue = some q
      ∧ q.items = [[104, 105]]
      ∧ w2.tasks = w1.tasks
      ∧ w2.sockets = []
      ∧ (∀ p, Task.handleData p ∈ w2.tasks → Task.handleData p ∈ ([] : List Task)) :=
  C4_inbound_pump_never_started (World.create exampleConfig) 1 streamTypeTCP 80 0 [97]
    [104, 105] rfl (by decide)

/-! ## wisp-stream.go: `close` on a stream whose signal was made -/

theorem sendPacket_heap (w : World) (t id : Nat) (payload : List Nat) :
    (wispConnection.sendPacket w t id payload).heap = w.heap :=
  (sendPacket_fields w t id payload).1

theorem sendPacket_sockets (w : World) (t id : Nat) (payload : List Nat) :
    (wispConnection.sendPacket w t id payload).sockets = w.sockets :=
  (sendPacket_fields w t id payload).2.1

theorem sendPacket_config (w : World) (t id : Nat) (payload : List Nat) :
    (wispConnection.sendPacket w t id payload).config = w.config :=
  (sendPacket_fields w t id payload).2.2.1

theorem sendPacket_streams (w : World) (t id : Nat) (payload : List Nat) :
    (wispConnection.sendPacket w t id payload).streams = w.streams :=
  (sendPacket_fields w t id payload).2.2.2.1

theorem sendPacket_tasks (w : World) (t id : Nat) (payload : List Nat) :
    (wispConnection.sendPacket w t id payload).tasks = w.tasks :=
  (sendPacket_fields w t id payload).2.2.2.2.1

theorem sendPacket_sent (w : World) (t id : Nat) (payload : List Nat) :
    (wispConnection.sendPacket w t id payload).sent
      = w.sent ++ [t :: (putUint32 id ++ payload)] :=
  (sendPacket_fields w t id payload).2.2.2.2.2

theorem close_eq (w : World) (p : Nat) (s : wispStream) (reason : Nat)
    (hs : w.getStream p = some s) (hr : CloseReady s) :
    wispStream.close w p reason
      = some (wispConnection.sendClosePacket
          { w with
            heap := w.heap.set p
              { s with isOpen := false, connEstablishedOnce := true,
                       connEstablished := Chan.closed,
                       dataQueue := s.dataQueue.map (fun q => { q with closed := true }) },
            streams := mapDelete w.streams s.streamId }
          s.streamId reason) := by
  have hplt : p < w.heap.length := getStream_lt w p s hs
  obtain ⟨hopen, hconn, hsig, hq⟩ := hr
  obtain ⟨sid, st, cn, br, ce, ceo, dq, io⟩ := s
  simp only at hopen hconn hsig hq
  subst hopen hconn
  unfold wispStream.close
  rw [hs]
  rcases hsig with ⟨h1, h2⟩ | ⟨h1, h2⟩
  · subst h1 h2
    cases dq with
    | none =>
      simp [wispStream.signalConnectionAttemptDone, World.getStream, World.setStream, hplt,
        wispConnection.deleteWispStream, wispStream.closeConnection, wispStream.sendClose]
    | some q =>
      have hqc : q.closed = false := hq q rfl
      simp [wispStream.signalConnectionAttemptDone, World.getStream, World.setStream, hplt,
        wispConnection.deleteWispStream, wispStream.closeConnection, wispStream.sendClose, hqc]
  · subst h1 h2
    cases dq with
    | none =>
      simp [wispStream.signalConnectionAttemptDone, World.getStream, World.setStream, hplt,
        wispConnection.deleteWispStream, wispStream.closeConnection, wispStream.sendClose]
    | some q =>
      have hqc : q.closed = false := hq q rfl
      simp [wispStream.signalConnectionAttemptDone, World.getStream, World.setStream, hplt,
        wispConnection.deleteWispStream, wispStream.closeConnection, wispStream.sendClose, hqc]

theorem close_ready (w : World) (p : Nat) (s : wispStream) (reason : Nat)
    (hs : w.getStream p = some s) (hr : CloseReady s) :
    ∃ w1 s1,
      wispStream.close w p reason = some w1
      ∧ wispStream.signalConnectionAttemptDone w1 p = some w1
      ∧ w1.sent = w.sent ++ [closeFrame s.streamId reason]
      ∧ w1.streams = mapDelete w.streams s.streamId
      ∧ w1.sockets = w.sockets
      ∧ w1.tasks = w.tasks
      ∧ w1.config = w.config
      ∧ w1.getStream p = some s1
      ∧ s1.isOpen = false
      ∧ s1.conn = none
      ∧ s1.streamId = s.streamId := by
  have hplt : p < w.heap.length := getStream_lt w p s hs
  have hconn : s.conn = none := hr.2.1
  have hget : (wispConnection.sendClosePacket
      { w with
        heap := w.heap.set p
          { s with isOpen := false, connEstablishedOnce := true,
                   connEstablished := Chan.closed,
                   dataQueue := s.dataQueue.map (fun q => { q with closed := true }) },
        streams := mapDelete w.streams s.streamId }
      s.streamId reason).getStream p
      = some { s with isOpen := false, connEstablishedOnce := true,
                      connEstablished := Chan.closed,
                      dataQueue := s.dataQueue.map (fun q => { q with closed := true }) } := by
    simp [World.getStream, wispConnection.sendClosePacket, sendPacket_heap, hplt]
  refine ⟨_, _, close_eq w p s reason hs hr, ?_, ?_, ?_, ?_, ?_, ?_, hget, rfl, hconn, rfl⟩
  · simp [wispStream.signalConnectionAttemptDone, hget]
  · simp [wispConnection.sendClosePacket, sendPacket_sent, closeFrame]
  · simp [wispConnection.sendClosePacket, sendPacket_streams]
  · simp [wispConnection.sendClosePacket, sendPacket_sockets]
  · simp [wispConnection.sendClosePacket, sendPacket_tasks]
  · simp [wispConnection.sendClosePacket, sendPacket_config]

theorem close_closed_noop (w : World) (p : Nat) (s : wispStream) (reason : Nat)
    (hs : w.getStream p = some s) (hc : s.isOpen = false) :
    wispStream.close w p reason = some w := by
  simp [wispStream.close, hs, hc]

/-- With the `connEstablished` channel made, `close` is idempotent: the first call emits the
one CLOSE frame carrying its reason, and a second call with any reason changes nothing. -/
theorem close_twice_when_allocated (w : World) (p : Nat) (s : wispStream) (r1 r2 : Nat)
    (hs : w.getStream p = some s) (hr : CloseReady s) :
    ∃ w1,
      wispStream.close w p r1 = some w1
      ∧ w1.sent = w.sent ++ [closeFrame s.streamId r1]
      ∧ wispStream.close w1 p r2 = some w1 := by
  obtain ⟨w1, s1, e1, -, se, -, -, -, -, ge, io, -, -⟩ := close_ready w p s r1 hs hr
  exact ⟨w1, e1, se, close_closed_noop w1 p s1 r2 ge io⟩

/-! ## wisp-stream.go: the UDP gate of `handleConnect` -/

theorem handleConnectBefore_udp_disabled (w : World) (p : Nat) (s : wispStream)
    (hostname : List Nat) (lookup : Option String) (proxyErr : Bool)
    (hs : w.getStream p = some s) (hudp : w.config.DisableUDP = true)
    (hdns : hostname ∈ w.config.BlacklistHostnames ∨ hostname ∈ w.config.WhitelistHostnames
      ∨ w.config.DnsServer = "" ∨ lookup ≠ none) :
    wispStream.handleConnectBefore w p streamTypeUDP hostname lookup proxyErr
        = (wispStream.close w p closeReasonBlocked).bind (fun w1 => some (w1, none))
      ∨ wispStream.handleConnectBefore w p streamTypeUDP hostname lookup proxyErr
        = (wispStream.close
            (w.setStream p { s with streamType := streamTypeUDP,
                                    bufferRemaining := w.config.BufferRemainingLength })
            p closeReasonBlocked).bind (fun w1 => some (w1, none)) := by
  have hne : ¬ (streamTypeUDP = streamTypeTCP) := by decide
  unfold wispStream.handleConnectBefore
  simp only [hs, Option.bind_eq_bind, Option.some_bind, Option.pure_def, wispStream.armStream,
    hne, if_false, hudp, true_or, if_true]
  by_cases hbl : hostname ∈ w.config.BlacklistHostnames
  · left
    rw [if_pos hbl]
  · rw [if_neg hbl]
    by_cases hg : hostname ∉ w.config.WhitelistHostnames ∧ w.config.DnsServer ≠ ""
    · rw [if_pos hg]
      cases hl : lookup with
      | none =>
        exfalso
        rcases hdns with h | h | h | h
        · exact hbl h
        · exact hg.1 h
        · exact hg.2 h
        · exact h hl
      | some r =>
        by_cases hz : r = "0.0.0.0" ∨ r = "::"
        · left
          simp only [if_pos hz]
        · right
          simp only [if_neg hz]
    · right
      rw [if_neg hg]

/-- On a stream whose `connEstablished` channel was made and which is still open, with
`DisableUDP = true`, the dial task `handleConnect` for stream type UDP closes the stream with
reason BLOCKED whenever the DNS override does not end in a lookup error. The sources never
build such a stream (`handleConnectPacket` leaves the channel nil). -/
theorem handleConnect_udp_disabled_when_allocated (w : World) (p : Nat) (s : wispStream)
    (port : String) (hostname : List Nat) (env : DialEnv)
    (hs : w.getStream p = some s) (hr : CloseReady s) (hudp : w.config.DisableUDP = true)
    (hdns : hostname ∈ w.config.BlacklistHostnames ∨ hostname ∈ w.config.WhitelistHostnames
      ∨ w.config.DnsServer = "" ∨ env.lookup ≠ none) :
    ∃ w1 s1,
      wispStream.handleConnect w p streamTypeUDP port hostname env = some w1
      ∧ w1.sent = w.sent ++ [closeFrame s.streamId closeReasonBlocked]
      ∧ mapGet w1.streams s.streamId = none
      ∧ w1.sockets = w.sockets
      ∧ w1.tasks = w.tasks
      ∧ w1.getStream p = some s1
      ∧ s1.isOpen = false
      ∧ s1.conn = none := by
  have hplt : p < w.heap.length := getStream_lt w p s hs
  rcases handleConnectBefore_udp_disabled w p s hostname env.lookup env.proxyErr hs hudp hdns
    with h | h
  · obtain ⟨w1, s1, e1, g1, se, st, so, ta, -, ge, io, cn, -⟩ :=
      close_ready w p s closeReasonBlocked hs hr
    refine ⟨w1, s1, ?_, se, ?_, so, ta, ge, io, cn⟩
    · simp [wispStream.handleConnect, wispStream.handleConnectStart, h, e1, g1]
    · rw [st]
      exact mapGet_mapDelete _ _
  · obtain ⟨w1, s1, e1, g1, se, st, so, ta, -, ge, io, cn, -⟩ :=
      close_ready
        (w.setStream p { s with streamType := streamTypeUDP,
                                bufferRemaining := w.config.BufferRemainingLength })
        p _ closeReasonBlocked (getStream_setStream w p _ hplt)
        ⟨hr.1, hr.2.1, hr.2.2.1, hr.2.2.2⟩
    refine ⟨w1, s1, ?_, se, ?_, so, ta, ge, io, cn⟩
    · simp [wispStream.handleConnect, wispStream.handleConnectStart, h, e1, g1]
    · rw [st]
      exact mapGet_mapDelete _ _

/-- On the same kind of stream, with `DisableUDP = true`, a DNS server configured, the
hostname "a" in neither list and a failed lookup, the dial task for the UDP stream 3 closes it
with reason UNREACHABLE: the DNS gate runs before the switch on the stream type. -/
theorem handleConnect_udp_lookup_error_when_allocated :
    udpOffConfig.DisableUDP = true
      ∧ ∃ w1,
        wispStream.handleConnect (allocatedWorld udpOffConfig 3) 0 streamTypeUDP "53" [97]
          { lookup := none, proxyErr := false, dialErr := false } = some w1
        ∧ w1.sent = [[4, 3, 0, 0, 0, 0x42]]
        ∧ w1.sent = [closeFrame 3 closeReasonUnreachable]
        ∧ w1.sent ≠ [closeFrame 3 closeReasonBlocked] := by
  refine ⟨rfl, _, rfl, ?_, ?_, ?_⟩
  · decide
  · decide
  · decide

/-! ## Close while the dial is in progress -/

/-- A latent defect of `handleConnect`, not reachable while `connEstablished` stays nil. First
part: on the stream that `handleConnectPacket` stores, a close that arrives while the dial is
in progress faults. Second part: on the same stream with the channel made, the schedule dial
starts, CLOSE frame from the client is handled (`handleClose`), dial succeeds, read pump reads
two bytes, emits CLOSE(1, 0x02) and then DATA(1, [104, 105]): `handleConnect` does not look at
`isOpen` after the dial returns, stores the socket and launches `readFromConnection`. -/
theorem latent_data_after_close_when_allocated :
    (∃ w1,
        handler.OnMessage (World.create exampleConfig) connectFrame = some w1
        ∧ wispStream.handleClose w1 0 closeReasonVoluntary = none)
    ∧ ∃ w1 w2 w3 w4,
        wispStream.handleConnectStart (allocatedWorld exampleConfig 1) 0 streamTypeTCP [97]
          none false = some (w1, some ("tcp", false))
        ∧ wispStream.handleClose w1 0 closeReasonVoluntary = some w2
        ∧ w2.sent = [closeFrame 1 closeReasonVoluntary]
        ∧ wispStream.handleConnectFinish w2 0 "tcp" false "80" [97] false = some w3
        ∧ w3.tasks = [Task.readFromConnection 0]
        ∧ wispStream.readFromConnection w3 0 [ReadResult.data [104, 105]] = some w4
        ∧ w4.sent = [closeFrame 1 closeReasonVoluntary, dataFrame 1 [104, 105]] := by
  refine ⟨⟨_, rfl, rfl⟩, _, _, _, _, rfl, rfl, ?_, rfl, ?_, rfl, ?_⟩
  · decide
  · decide
  · decide

/-- C6, refuted on the sources. First part, for every configuration and every CONNECT frame
on a fresh connection: `OnClose` faults in the first `close(UNSPECIFIED)` (nil
`connEstablished`) before the table entry is deleted and before any CLOSE frame is sent.
Second part, on the same stream with the channel made and the dial in progress at teardown:
`OnClose` closes the stream and empties the table; when the dial then succeeds,
`handleConnect` stores the new socket in the closed stream, and no later `close` or `OnClose`
closes it (`close` returns at once because `isOpen` is false), nor does the read pump when it
ends. -/
theorem C6_teardown_leaves_socket_open (config : Config) (streamId streamType p0 p1 : Nat)
    (hostname : List Nat) :
    (∃ w1,
        wispConnection.handleConnectPacket (World.create config) streamId
          (streamType :: p0 :: p1 :: hostname) = some w1
        ∧ w1.streams = [(streamId, 0)]
        ∧ handler.OnClose w1 = none)
    ∧ ∃ w1 w2 w3 w4 sock,
        wispStream.handleConnectStart (allocatedWorld exampleConfig 1) 0 streamTypeTCP [97]
          none false = some (w1, some ("tcp", false))
        ∧ handler.OnClose w1 = some w2
        ∧ w2.streams = []
        ∧ w2.sent = [closeFrame 1 closeReasonUnspecified]
        ∧ wispStream.handleConnectFinish w2 0 "tcp" false "80" [97] false = some w3
        ∧ handler.OnClose w3 = some w3
        ∧ wispStream.close w3 0 closeReasonUnspecified = some w3
        ∧ wispStream.readFromConnection w3 0 [ReadResult.eof] = some w4
        ∧ w4.sockets = [sock]
        ∧ sock.closeCalls = 0 := by
  refine ⟨⟨_, handleConnectPacket_creates (World.create config) streamId streamType p0 p1
    hostname rfl, rfl, ?_⟩, _, _, _, _, _, rfl, rfl, rfl, ?_, rfl, rfl, rfl, rfl, rfl, rfl⟩
  · have h := close_nil_faults
      { World.create config with
        heap := (World.create config).heap ++
          [{ streamId := streamId, streamType := 0, conn := none, bufferRemaining := 0,
             connEstablished := Chan.nilChan, connEstablishedOnce := false,
             dataQueue := some
               { capacity := (World.create config).config.BufferRemainingLength, items := [],
                 closed := false },
             isOpen := true }],
        streams := mapSet (World.create config).streams streamId
          (World.create config).heap.length,
        tasks := (World.create config).tasks ++
          [Task.handleConnect (World.create config).heap.length streamType
            (Nat.repr (p0 + p1 * 256)) hostname] }
      0 _ closeReasonUnspecified (created_getStream (World.create config) _ _ _) rfl rfl rfl
    simp only [handler.OnClose, wispConnection.deleteAllWispStreams]
    simp only [World.create, mapSet, mapDelete, List.filter_nil, List.nil_append, List.map_cons,
      List.map_nil, List.foldlM_cons, List.length_nil] at h ⊢
    rw [h]
    rfl
  · decide

/-! ## Runs: the frames a connection emits -/

theorem runInv_create (config : Config) : RunInv (World.create config) := by
  constructor
  · intro s hs
    simp [World.create] at hs
  · intro f hf
    simp [World.create] at hf

theorem sendPacket_inv (w : World) (t id : Nat) (payload : List Nat)
    (ht : t ≠ packetTypeData) (h : RunInv w) :
    RunInv (wispConnection.sendPacket w t id payload) := by
  constructor
  · rw [sendPacket_heap]
    exact h.1
  · rw [sendPacket_sent]
    intro f hf
    rcases List.mem_append.mp hf with hf | hf
    · exact h.2 f hf
    · simp at hf
      subst hf
      simpa using ht

theorem setStream_inv (w : World) (p : Nat) (s1 : wispStream) (h : RunInv w)
    (h1 : AsCreated s1) : RunInv (w.setStream p s1) := by
  constructor
  · intro s hs
    rcases List.mem_or_eq_of_mem_set hs with hs | hs
    · exact h.1 s hs
    · subst hs
      exact h1
  · exact h.2

theorem getStream_mem (w : World) (p : Nat) (s : wispStream) (hs : w.getStream p = some s) :
    s ∈ w.heap := by
  obtain ⟨hlt, he⟩ := List.getElem?_eq_some_iff.mp hs
  exact he ▸ List.getElem_mem hlt

theorem close_inv_none (w : World) (p reason : Nat) (h : RunInv w) :
    wispStream.close w p reason = none := by
  cases hs : w.getStream p with
  | none => simp [wispStream.close, hs]
  | some s =>
    obtain ⟨h1, h2, h3, -⟩ := h.1 s (getStream_mem w p s hs)
    exact close_nil_faults w p s reason hs h1 h2 h3

theorem tasks_inv (w : World) (tasks : List Task) (h : RunInv w) :
    RunInv { w with tasks := tasks } :=
  h

theorem handleConnectPacket_inv (w w1 : World) (streamId : Nat) (payload : List Nat)
    (h : wispConnection.handleConnectPacket w streamId payload = some w1) (hi : RunInv w) :
    RunInv w1 := by
  unfold wispConnection.handleConnectPacket at h
  split at h
  · cases h; exact hi
  · rcases payload with _ | ⟨a, _ | ⟨b, _ | ⟨c, rest⟩⟩⟩
    · simp at h
    · simp [slice] at h
    · simp [slice] at h
    · simp only [slice, sliceFrom, uint16] at h
      simp at h
      split at h
      · cases h; exact hi
      · simp at h
        subst h
        constructor
        · intro s hs
          simp only [List.mem_append, List.mem_singleton] at hs
          rcases hs with hs | hs
          · exact hi.1 s hs
          · subst hs
            exact ⟨rfl, rfl, rfl, rfl⟩
        · exact hi.2

theorem handleDataPacket_inv (w w1 : World) (streamId : Nat) (payload : List Nat)
    (h : wispConnection.handleDataPacket w streamId payload = some w1) (hi : RunInv w) :
    RunInv w1 := by
  unfold wispConnection.handleDataPacket at h
  split at h
  · simp at h
    subst h
    exact hi
  · rename_i p hp
    cases hg : w.getStream p with
    | none => simp [hg] at h
    | some s =>
      have hs := hi.1 s (getStream_mem w p s hg)
      simp only [hg, Option.bind_eq_bind, Option.some_bind] at h
      split at h
      · cases h; exact hi
      · split at h
        · cases h; exact hi
        · split at h
          · simp at h
          · split at h
            · cases h
              exact setStream_inv w p _ hi hs
            · cases h; exact hi

theorem handleClosePacket_inv (w w1 : World) (streamId : Nat) (payload : List Nat)
    (h : wispConnection.handleClosePacket w streamId payload = some w1) (hi : RunInv w) :
    RunInv w1 := by
  unfold wispConnection.handleClosePacket at h
  split at h
  · cases h; exact hi
  · cases hp : payload[0]? with
    | none => simp [hp] at h
    | some r =>
      simp only [hp, Option.bind_eq_bind, Option.some_bind] at h
      split at h
      · cases h; exact hi
      · simp at h
        subst h
        exact hi

theorem OnMessage_inv (w w1 : World) (packet : List Nat)
    (h : handler.OnMessage w packet = some w1) (hi : RunInv w) : RunInv w1 := by
  unfold handler.OnMessage at h
  split at h
  · cases h; exact hi
  · cases hp : parseWispPacket packet with
    | none => simp [hp] at h
    | some r =>
      obtain ⟨t, id, payload⟩ := r
      simp only [hp, Option.bind_eq_bind, Option.some_bind] at h
      unfold wispConnection.handlePacket at h
      split at h
      · exact handleConnectPacket_inv w w1 id payload h hi
      · split at h
        · exact handleDataPacket_inv w w1 id payload h hi
        · split at h
          · exact handleClosePacket_inv w w1 id payload h hi
          · cases h; exact hi

theorem OnClose_inv (w w1 : World) (h : handler.OnClose w = some w1) (hi : RunInv w) :
    RunInv w1 := by
  unfold handler.OnClose wispConnection.deleteAllWispStreams at h
  cases hl : w.streams.map (fun e => e.2) with
  | nil =>
    simp only [hl, List.foldlM_nil, Option.pure_def, Option.some.injEq] at h
    subst h
    exact hi
  | cons p rest =>
    simp only [hl, List.foldlM_cons, close_inv_none w p closeReasonUnspecified hi,
      Option.bind_eq_bind, Option.none_bind] at h
    cases h

theorem dialStart_inv (w w1 : World) (p streamType : Nat) (hostname : List Nat)
    (lookup : Option String) (proxyErr : Bool)
    (h : (wispStream.handleConnectStart w p streamType hostname lookup proxyErr).map
      (fun r => r.1) = some w1) (hi : RunInv w) : RunInv w1 := by
  cases hg : w.getStream p with
  | none =>
    simp [wispStream.handleConnectStart, wispStream.handleConnectBefore, hg] at h
  | some s =>
    obtain ⟨h1, h2, h3, h4⟩ := hi.1 s (getStream_mem w p s hg)
    rcases handleConnectBefore_nil w p s streamType hostname lookup proxyErr hg h1 h2 h3
      with hb | ⟨d, hb⟩
    · simp [wispStream.handleConnectStart, hb] at h
    · simp [wispStream.handleConnectStart, hb] at h
      subst h
      exact setStream_inv w p _ hi ⟨h1, h2, h3, h4⟩

theorem dialFinish_none (w : World) (p : Nat) (network : String) (viaProxy : Bool)
    (port : String) (hostname : List Nat) (dialErr : Bool) (hi : RunInv w) :
    wispStream.handleConnectFinish w p network viaProxy port hostname dialErr = none := by
  cases hg : w.getStream p with
  | none =>
    simp [wispStream.handleConnectFinish, wispStream.handleConnectAfter, hg]
  | some s =>
    obtain ⟨h1, h2, h3, -⟩ := hi.1 s (getStream_mem w p s hg)
    exact handleConnectFinish_nil w p s network viaProxy port hostname dialErr hg h1 h2 h3

theorem readFromConnection_inv (w w1 : World) (p : Nat) (reads : List ReadResult)
    (h : wispStream.readFromConnection w p reads = some w1) (hi : RunInv w) : RunInv w1 := by
  unfold wispStream.readFromConnection at h
  split at h
  · cases h
  · cases reads with
    | nil =>
      simp [wispStream.readLoop] at h
      subst h
      exact hi
    | cons r rest =>
      cases hg : w.getStream p with
      | none => simp [wispStream.readLoop, hg] at h
      | some s =>
        obtain ⟨-, -, -, h4⟩ := hi.1 s (getStream_mem w p s hg)
        simp [wispStream.readLoop, hg, h4] at h

theorem handleData_inv (w w1 : World) (p : Nat) (delivered : List (List Nat × Bool))
    (h : (wispStream.handleData w p delivered).map
      (fun r => match r with
        | Pump.blocked => w
        | Pump.ran w1 => w1) = some w1) (hi : RunInv w) : RunInv w1 := by
  cases hg : w.getStream p with
  | none => simp [wispStream.handleData, hg] at h
  | some s =>
    obtain ⟨h1, -, -, -⟩ := hi.1 s (getStream_mem w p s hg)
    simp [wispStream.handleData, hg, h1] at h
    subst h
    exact hi

theorem step_inv (w w1 : World) (st : Step) (h : w.step st = some w1) (hi : RunInv w) :
    RunInv w1 := by
  cases st with
  | onOpen =>
    simp only [World.step, Option.some.injEq] at h
    subst h
    exact sendPacket_inv w _ _ _ (by decide) hi
  | onMessage packet => exact OnMessage_inv w w1 packet h hi
  | onClose => exact OnClose_inv w w1 h hi
  | writeFails =>
    simp only [World.step, Option.some.injEq] at h
    subst h
    exact hi
  | dialStart p streamType hostname lookup proxyErr =>
    exact dialStart_inv w w1 p streamType hostname lookup proxyErr h hi
  | dialFinish p network viaProxy port hostname dialErr =>
    simp only [World.step, dialFinish_none w p network viaProxy port hostname dialErr hi] at h
    cases h
  | handleClose p reason =>
    simp only [World.step, wispStream.handleClose, close_inv_none w p _ hi] at h
    cases h
  | close p reason =>
    simp only [World.step, close_inv_none w p _ hi] at h
    cases h
  | sendClosePacket streamId reason =>
    simp only [World.step, Option.some.injEq] at h
    subst h
    exact sendPacket_inv w _ _ _ (by decide) hi
  | readFromConnection p reads => exact readFromConnection_inv w w1 p reads h hi
  | handleData p delivered => exact handleData_inv w w1 p delivered h hi

theorem run_inv (steps : List Step) :
    ∀ (w w1 : World), w.run steps = some w1 → RunInv w → RunInv w1 := by
  induction steps with
  | nil =>
    intro w w1 h hi
    simp only [World.run, List.foldlM_nil, Option.pure_def, Option.some.injEq] at h
    subst h
    exact hi
  | cons st rest ih =>
    intro w w1 h hi
    simp only [World.run, List.foldlM_cons, Option.bind_eq_bind] at h
    cases hs : w.step st with
    | none => simp [hs] at h
    | some w2 =>
      simp only [hs, Option.some_bind] at h
      exact ih w2 w1 h (step_inv w w2 st hs hi)

theorem frameHead_type (f : List Nat) (t id : Nat) (h : frameHead f = some (t, id)) :
    f[0]? = some t := by
  unfold frameHead parseWispPacket at h
  cases h0 : f[0]? with
  | none => simp [h0] at h
  | some t0 =>
    simp only [h0, Option.bind_eq_bind, Option.some_bind] at h
    cases h1 : slice f 1 5 with
    | none => simp [h1] at h
    | some b =>
      simp only [h1, Option.some_bind] at h
      cases h2 : uint32 b with
      | none => simp [h2] at h
      | some v =>
        simp only [h2, Option.some_bind] at h
        cases h3 : sliceFrom f 5 with
        | none => simp [h3] at h
        | some pl =>
          simp [h3] at h
          rw [h.1]

theorem inv_noDataAfterClose (w : World) (hi : RunInv w) : NoDataAfterClose w.sent := by
  intro i j id _ _ hj
  cases hf : w.sent[j]? with
  | none => simp [hf] at hj
  | some f =>
    simp only [hf, Option.bind_eq_bind, Option.some_bind] at hj
    have hmem : f ∈ w.sent := by
      obtain ⟨hlt, he⟩ := List.getElem?_eq_some_iff.mp hf
      exact he ▸ List.getElem_mem hlt
    exact hi.2 f hmem (frameHead_type f _ _ hj)

/-- C5: in every state that a run of steps reaches from a fresh connection (carrier
callbacks, dial task halves, `handleClose`, `close`, `sendClosePacket`, read pump and inbound
pump steps, in any order and with any arguments, a run ending at the first fault), the emitted
frames hold no DATA frame of a stream id after a CLOSE frame of that stream id. It holds
because every stream stays as `handleConnectPacket` stored it: every `close` and every
finished dial faults on the nil `connEstablished`, so `readFromConnection`, the one caller of
`sendData`, never gets a socket to read from, and no DATA frame is emitted at all. -/
theorem C5_no_data_after_close (config : Config) (steps : List Step) (w : World)
    (h : (World.create config).run steps = some w) : NoDataAfterClose w.sent :=
  inv_noDataAfterClose w (run_inv steps (World.create config) w h (runInv_create config))

/-- Instance of C5: the example run reaches a state whose emitted frames are the initial
CONTINUE(0, 2) and CLOSE(7, INVALID_INFO), with no DATA frame after the CLOSE frame. -/
theorem C5_no_data_after_close_witness :
    ∃ w,
      (World.create exampleConfig).run exampleRun = some w
      ∧ w.sent = [continueFrame 0 2, closeFrame 7 closeReasonInvalidInfo]
      ∧ NoDataAfterClose w.sent := by
  refine ⟨_, rfl, ?_, ?_⟩
  · decide
  · exact C5_no_data_after_close exampleConfig exampleRun _ rfl

/-! ## The UDP gate on the stream the sources create -/

/-- C8, refuted on the sources: with `DisableUDP = true`, on a fresh connection, a CONNECT
frame for a UDP stream makes `handleConnectPacket` store the stream and launch its dial task,
and that dial task faults for every outcome of the DNS override, the proxy set-up and the
dial: each of its paths calls `close` (with BLOCKED, or with UNREACHABLE after a failed
lookup), and `close` faults in `signalConnectionAttemptDone` on the nil `connEstablished`
before `sendClose`. No CLOSE frame, with reason BLOCKED or any other, is emitted. -/
theorem C8_udp_disabled_faults (config : Config) (streamId p0 p1 : Nat) (hostname : List Nat)
    (hudp : config.DisableUDP = true) :
    ∃ w1,
      wispConnection.handleConnectPacket (World.create config) streamId
        (streamTypeUDP :: p0 :: p1 :: hostname) = some w1
      ∧ w1.config.DisableUDP = true
      ∧ w1.tasks = [Task.handleConnect 0 streamTypeUDP (Nat.repr (p0 + p1 * 256)) hostname]
      ∧ w1.sent = []
      ∧ (∀ reason, wispStream.close w1 0 reason = none)
      ∧ (∀ env, wispStream.handleConnect w1 0 streamTypeUDP (Nat.repr (p0 + p1 * 256))
          hostname env = none) := by
  refine ⟨_, handleConnectPacket_creates (World.create config) streamId streamTypeUDP p0 p1
    hostname rfl, hudp, rfl, rfl, ?_, ?_⟩
  · intro reason
    exact close_nil_faults _ _ _ reason (created_getStream (World.create config) _ _ _)
      rfl rfl rfl
  · intro env
    exact handleConnect_nil_faults _ _ _ streamTypeUDP _ hostname env
      (created_getStream (World.create config) _ _ _) rfl rfl rfl

/-- Instance of C8: UDP disabled, CONNECT for stream 3 with stream type UDP, port 53 and
hostname "a", delivered as the frame `[1, 3, 0, 0, 0, 2, 53, 0, 97]`; the dial task faults
and no frame is emitted. -/
theorem C8_udp_disabled_faults_witness :
    handler.OnMessage (World.create udpOffConfig) [1, 3, 0, 0, 0, 2, 53, 0, 97]
        = wispConnection.handleConnectPacket (World.create udpOffConfig) 3
            (streamTypeUDP :: 53 :: 0 :: [97])
      ∧ ∃ w1,
        wispConnection.handleConnectPacket (World.create udpOffConfig) 3
          (streamTypeUDP :: 53 :: 0 :: [97]) = some w1
        ∧ w1.config.DisableUDP = true
        ∧ w1.tasks = [Task.handleConnect 0 streamTypeUDP (Nat.repr (53 + 0 * 256)) [97]]
        ∧ w1.sent = []
        ∧ (∀ reason, wispStream.close w1 0 reason = none)
        ∧ (∀ env, wispStream.handleConnect w1 0 streamTypeUDP (Nat.repr (53 + 0 * 256))
            [97] env = none) :=
  ⟨rfl, C8_udp_disabled_faults udpOffConfig 3 53 0 [97] rfl⟩

end Wisp
